import Mathlib

/-!
# vjoy: device state encoding and lifecycle

A shallow embedding of `src/vjoy.go` and of the declarations of `src/dll/dll.go`
it relies on.

Conventions of the embedding:

* Go `int` is the 64-bit signed integer; a value of type `int` is a Lean `Int`
  and every arithmetic operation that can leave the range is followed by
  `toInt64`.
* Go `int32` is a Lean `Int` kept in range by `toInt32`; Go `uint32`, `uint`
  and `byte` are Lean `Nat` reduced modulo the width.
* A Go pointer into the `Device` (`&d.st.AxisX`, `&d.noi`, ...) is a value of
  `I32Ref` or `U32Ref`; a nil pointer is `none`.
* The driver (the DLL entry points called through `dll.*`) is a record of
  response functions; every call made is appended to a log.
* `Setf` and `Setuf` take the `float32` operations as a parameter; `binary32`
  is the instance for Go's `float32`: finite values are integer multiples of
  `2^-149`, sums and products are rounded to nearest, ties to even.
-/

namespace vjoy

/-! ## Machine integers -/

/-- Conversion to `uint32`: the value modulo `2^32`. -/
def toUint32 (v : Int) : Nat := (v % 4294967296).toNat

/-- Conversion to `int32`: two's complement wrap to `[-2^31, 2^31)`. -/
def toInt32 (v : Int) : Int := (v + 2147483648) % 4294967296 - 2147483648

/-- Bit pattern of an `int` (64-bit two's complement). -/
def toUint64 (v : Int) : Nat := (v % 18446744073709551616).toNat

/-- Conversion to `int`: two's complement wrap to `[-2^63, 2^63)`. -/
def toInt64 (v : Int) : Int :=
  (v + 9223372036854775808) % 18446744073709551616 - 9223372036854775808

/-- Go `a & b` on `int`. -/
def andInt (a b : Int) : Int := toInt64 (Int.ofNat (toUint64 a &&& toUint64 b))

/-- Go `a | b` on `int32`. -/
def or32 (a b : Int) : Int := toInt32 (Int.ofNat (toUint32 a ||| toUint32 b))

/-- Go `a & b` on `int32`. -/
def and32 (a b : Int) : Int := toInt32 (Int.ofNat (toUint32 a &&& toUint32 b))

/-- Go `^a` on `int32`: bitwise complement. -/
def not32 (a : Int) : Int := toInt32 (Int.ofNat (toUint32 a ^^^ 4294967295))

/-- Go `x << s` on `uint32`; a count of 32 or more gives 0. -/
def shlU32 (x s : Nat) : Nat := if 32 ≤ s then 0 else (x <<< s) % 4294967296

/-- Go `x << s` on `int32`; a count of 32 or more gives 0. -/
def shl32 (x : Int) (s : Nat) : Int :=
  if 32 ≤ s then 0 else toInt32 (Int.ofNat (toUint32 x <<< s))

/-- Go `uint(v)` for an `int` v. -/
def toUint (v : Int) : Nat := toUint64 v

/-! ## dll.go: constants and the state buffer -/

def VJD_STAT_OWN : Int := 0
def VJD_STAT_FREE : Int := 1
def VJD_STAT_BUSY : Int := 2
def VJD_STAT_MISS : Int := 3
def VJD_STAT_UNKN : Int := 4

def HID_USAGE_X : Nat := 0x30
def HID_USAGE_Y : Nat := 0x31
def HID_USAGE_Z : Nat := 0x32
def HID_USAGE_RX : Nat := 0x33
def HID_USAGE_RY : Nat := 0x34
def HID_USAGE_RZ : Nat := 0x35
def HID_USAGE_SL0 : Nat := 0x36
def HID_USAGE_SL1 : Nat := 0x37

/-- The struct `dll.JOYSTICK_POSITION`, fields in declaration order. -/
structure JOYSTICK_POSITION where
  Device : Nat
  Throttle : Int
  Rudder : Int
  Aileron : Int
  AxisX : Int
  AxisY : Int
  AxisZ : Int
  AxisXRot : Int
  AxisYRot : Int
  AxisZRot : Int
  Slider : Int
  Dial : Int
  Wheel : Int
  AxisVX : Int
  AxisVY : Int
  AxisVZ : Int
  AxisVBRX : Int
  AxisVBRY : Int
  AxisVBRZ : Int
  Buttons : Int
  Hats : Nat
  HatsEx1 : Nat
  HatsEx2 : Nat
  HatsEx3 : Nat
  ButtonsEx1 : Int
  ButtonsEx2 : Int
  ButtonsEx3 : Int

/-- The zero value of `JOYSTICK_POSITION`. -/
def JOYSTICK_POSITION.zero : JOYSTICK_POSITION :=
  { Device := 0
    Throttle := 0, Rudder := 0, Aileron := 0
    AxisX := 0, AxisY := 0, AxisZ := 0
    AxisXRot := 0, AxisYRot := 0, AxisZRot := 0
    Slider := 0, Dial := 0, Wheel := 0
    AxisVX := 0, AxisVY := 0, AxisVZ := 0
    AxisVBRX := 0, AxisVBRY := 0, AxisVBRZ := 0
    Buttons := 0
    Hats := 0, HatsEx1 := 0, HatsEx2 := 0, HatsEx3 := 0
    ButtonsEx1 := 0, ButtonsEx2 := 0, ButtonsEx3 := 0 }

/-! ## vjoy.go: errors, names, handles -/

inductive Error where
  | ErrDeviceAlreadyOwned
  | ErrDeviceBusy
  | ErrDeviceMissing
  | ErrDeviceUnknown
  | ErrReset
  | ErrUpdate
  | ErrUnknownName
  deriving DecidableEq

def AxisX : Int := 0
def AxisY : Int := 1
def AxisZ : Int := 2
def AxisRX : Int := 3
def AxisRY : Int := 4
def AxisRZ : Int := 5
def Slider0 : Int := 6
def Slider1 : Int := 7
def MaxAxis : Int := 8

def axisNumber (a : Int) : Nat :=
  if a = AxisX then HID_USAGE_X
  else if a = AxisY then HID_USAGE_Y
  else if a = AxisZ then HID_USAGE_Z
  else if a = AxisRX then HID_USAGE_RX
  else if a = AxisRY then HID_USAGE_RY
  else if a = AxisRZ then HID_USAGE_RZ
  else if a = Slider0 then HID_USAGE_SL0
  else if a = Slider1 then HID_USAGE_SL1
  else 0

/-- A `*int32` into a `Device`: one of the `int32` fields of `d.st`, or `d.noi`. -/
inductive I32Ref where
  | Throttle | Rudder | Aileron | AxisX | AxisY | AxisZ
  | AxisXRot | AxisYRot | AxisZRot | Slider | Dial | Wheel
  | AxisVX | AxisVY | AxisVZ | AxisVBRX | AxisVBRY | AxisVBRZ
  | Buttons | ButtonsEx1 | ButtonsEx2 | ButtonsEx3
  | noi
  deriving DecidableEq

/-- A `*uint32` into a `Device`: one of the hat words of `d.st`, or `d.nou`. -/
inductive U32Ref where
  | Hats | HatsEx1 | HatsEx2 | HatsEx3
  | nou
  deriving DecidableEq

structure Axis where
  p : I32Ref
  «exists» : Bool
  min : Int
  max : Int
  deriving DecidableEq

structure Button where
  p : I32Ref
  mask : Int
  «exists» : Bool
  deriving DecidableEq

abbrev HatState := Int

def HatN : HatState := 0
def HatE : HatState := 1
def HatS : HatState := 2
def HatW : HatState := 3
def HatOff : HatState := -1

structure continuousHat where
  p : U32Ref
  shift : Nat
  «exists» : Bool
  deriving DecidableEq

structure discreteHat where
  p : U32Ref
  shift : Nat
  «exists» : Bool
  deriving DecidableEq

/-- The interface `Hat` with its two implementations. -/
inductive Hat where
  | continuous (h : continuousHat)
  | discrete (h : discreteHat)
  deriving DecidableEq

/-- The struct `Device`. A nil handle pointer is `none`. -/
structure Device where
  rid : Nat
  st : JOYSTICK_POSITION
  noi : Int
  nou : Nat
  axes : List (Option Axis)
  buttons : List (Option Button)
  hats : List Hat
  invalidaxis : Option Axis
  invalidbutton : Option Button
  invalidhat : Option Hat

/-! ## Reading and writing through pointers -/

/-- Read `*p` for a `*int32` into the device. -/
def Device.load32 (d : Device) : I32Ref → Int
  | .Throttle => d.st.Throttle
  | .Rudder => d.st.Rudder
  | .Aileron => d.st.Aileron
  | .AxisX => d.st.AxisX
  | .AxisY => d.st.AxisY
  | .AxisZ => d.st.AxisZ
  | .AxisXRot => d.st.AxisXRot
  | .AxisYRot => d.st.AxisYRot
  | .AxisZRot => d.st.AxisZRot
  | .Slider => d.st.Slider
  | .Dial => d.st.Dial
  | .Wheel => d.st.Wheel
  | .AxisVX => d.st.AxisVX
  | .AxisVY => d.st.AxisVY
  | .AxisVZ => d.st.AxisVZ
  | .AxisVBRX => d.st.AxisVBRX
  | .AxisVBRY => d.st.AxisVBRY
  | .AxisVBRZ => d.st.AxisVBRZ
  | .Buttons => d.st.Buttons
  | .ButtonsEx1 => d.st.ButtonsEx1
  | .ButtonsEx2 => d.st.ButtonsEx2
  | .ButtonsEx3 => d.st.ButtonsEx3
  | .noi => d.noi

/-- Write `*p = v` for a `*int32` into the device. -/
def Device.store32 (d : Device) (p : I32Ref) (v : Int) : Device :=
  match p with
  | .Throttle => { d with st := { d.st with Throttle := v } }
  | .Rudder => { d with st := { d.st with Rudder := v } }
  | .Aileron => { d with st := { d.st with Aileron := v } }
  | .AxisX => { d with st := { d.st with AxisX := v } }
  | .AxisY => { d with st := { d.st with AxisY := v } }
  | .AxisZ => { d with st := { d.st with AxisZ := v } }
  | .AxisXRot => { d with st := { d.st with AxisXRot := v } }
  | .AxisYRot => { d with st := { d.st with AxisYRot := v } }
  | .AxisZRot => { d with st := { d.st with AxisZRot := v } }
  | .Slider => { d with st := { d.st with Slider := v } }
  | .Dial => { d with st := { d.st with Dial := v } }
  | .Wheel => { d with st := { d.st with Wheel := v } }
  | .AxisVX => { d with st := { d.st with AxisVX := v } }
  | .AxisVY => { d with st := { d.st with AxisVY := v } }
  | .AxisVZ => { d with st := { d.st with AxisVZ := v } }
  | .AxisVBRX => { d with st := { d.st with AxisVBRX := v } }
  | .AxisVBRY => { d with st := { d.st with AxisVBRY := v } }
  | .AxisVBRZ => { d with st := { d.st with AxisVBRZ := v } }
  | .Buttons => { d with st := { d.st with Buttons := v } }
  | .ButtonsEx1 => { d with st := { d.st with ButtonsEx1 := v } }
  | .ButtonsEx2 => { d with st := { d.st with ButtonsEx2 := v } }
  | .ButtonsEx3 => { d with st := { d.st with ButtonsEx3 := v } }
  | .noi => { d with noi := v }

/-- Read `*p` for a `*uint32` into the device. -/
def Device.loadU32 (d : Device) : U32Ref → Nat
  | .Hats => d.st.Hats
  | .HatsEx1 => d.st.HatsEx1
  | .HatsEx2 => d.st.HatsEx2
  | .HatsEx3 => d.st.HatsEx3
  | .nou => d.nou

/-- Write `*p = v` for a `*uint32` into the device. -/
def Device.storeU32 (d : Device) (p : U32Ref) (v : Nat) : Device :=
  match p with
  | .Hats => { d with st := { d.st with Hats := v } }
  | .HatsEx1 => { d with st := { d.st with HatsEx1 := v } }
  | .HatsEx2 => { d with st := { d.st with HatsEx2 := v } }
  | .HatsEx3 => { d with st := { d.st with HatsEx3 := v } }
  | .nou => { d with nou := v }

/-! ## Axis -/

def Axis.Exists (a : Axis) : Bool := a.«exists»

/-- The setter `Setu`: `*(a.p) = int32(val & 0x7fff)`. -/
def Axis.Setu (a : Axis) (val : Int) (d : Device) : Device :=
  d.store32 a.p (toInt32 (andInt val 0x7fff))

/-- The setter `Seti`: `a.Setu(val - 0x4000)`. -/
def Axis.Seti (a : Axis) (val : Int) (d : Device) : Device :=
  a.Setu (toInt64 (val - 0x4000)) d

/-- The setter `Setc`: same as Setu, but truncates values to permitted bounds. -/
def Axis.Setc (a : Axis) (val : Int) (d : Device) : Device :=
  let val := if val < 0 then 0 else if 0x7fff < val then 0x7fff else val
  a.Setu val d

/-- The `float32` operations used by `Setf` and `Setuf`: comparison, addition,
multiplication, the constants, and the conversion `int(x)`. The carrier and the
operations are parameters of the embedding. -/
structure Float32Ops (F : Type) where
  lt : F → F → Bool
  add : F → F → F
  mul : F → F → F
  ofNat : Nat → F
  toInt : F → Int

/-- The setter `Setf`. -/
def Axis.Setf {F : Type} (fl : Float32Ops F) (a : Axis) (val : F) (d : Device) : Device :=
  let v : Int :=
    if fl.lt val (fl.ofNat 0) then
      let val := fl.add val (fl.ofNat 1)
      let val := if fl.lt val (fl.ofNat 0) then fl.ofNat 0 else val
      fl.toInt (fl.mul val (fl.ofNat 0x4000))
    else
      let val := if fl.lt (fl.ofNat 1) val then fl.ofNat 1 else val
      toInt64 (0x4000 + fl.toInt (fl.mul val (fl.ofNat 0x3fff)))
  a.Setu v d

/-- The setter `Setuf`: `a.Setc(int(val * 0x7fff))`. -/
def Axis.Setuf {F : Type} (fl : Float32Ops F) (a : Axis) (val : F) (d : Device) : Device :=
  a.Setc (fl.toInt (fl.mul val (fl.ofNat 0x7fff))) d

/-! ## Button -/

def Button.Exists (b : Button) : Bool := b.«exists»

/-- The method `Button.Set`: or the mask in, or and its complement. -/
def Button.Set (b : Button) (val : Bool) (d : Device) : Device :=
  if val then
    d.store32 b.p (or32 (d.load32 b.p) b.mask)
  else
    d.store32 b.p (and32 (d.load32 b.p) (not32 b.mask))

/-! ## Hats -/

def continuousHat.Exists (h : continuousHat) : Bool := h.«exists»

def continuousHat.SetDiscrete (h : continuousHat) (s : HatState) (d : Device) : Device :=
  let mask := shlU32 0xffff h.shift
  let val : Int := s
  let val := if val > 0 then toInt64 (val * 9000) else val
  d.storeU32 h.p ((d.loadU32 h.p &&& mask) ||| shlU32 (toUint32 val) h.shift)

def continuousHat.SetDegp (h : continuousHat) (val : Int) (d : Device) : Device :=
  let mask := shlU32 0xffff h.shift
  d.storeU32 h.p ((d.loadU32 h.p &&& mask) ||| shlU32 (toUint32 val) h.shift)

def discreteHat.Exists (h : discreteHat) : Bool := h.«exists»

def discreteHat.SetDiscrete (h : discreteHat) (val : HatState) (d : Device) : Device :=
  let mask := shlU32 0xf h.shift
  d.storeU32 h.p ((d.loadU32 h.p &&& mask) ||| shlU32 (toUint32 val) h.shift)

def discreteHat.SetDegp (h : discreteHat) (val : Int) (d : Device) : Device :=
  let val := if val > 0 then Int.tmod (Int.tdiv (toInt64 (val + 4500)) 9000) 4 else val
  let mask := shlU32 0xffff h.shift
  d.storeU32 h.p ((d.loadU32 h.p &&& mask) ||| shlU32 (toUint32 val) h.shift)

def Hat.Exists : Hat → Bool
  | .continuous h => h.Exists
  | .discrete h => h.Exists

def Hat.SetDiscrete : Hat → HatState → Device → Device
  | .continuous h => h.SetDiscrete
  | .discrete h => h.SetDiscrete

def Hat.SetDegp : Hat → Int → Device → Device
  | .continuous h => h.SetDegp
  | .discrete h => h.SetDegp

/-- The pointer a hat writes through. -/
def Hat.p : Hat → U32Ref
  | .continuous h => h.p
  | .discrete h => h.p

/-- The half-word shift of a hat. -/
def Hat.shift : Hat → Nat
  | .continuous h => h.shift
  | .discrete h => h.shift

/-! ## The driver -/

/-- The responses of the driver to the entry points `Acquire` uses. The
functions `GetVJDAxisMin` and `GetVJDAxisMax` give the value the driver leaves
in the `int32` it is handed. -/
structure Driver where
  GetVJDStatus : Nat → Int
  AcquireVJD : Nat → Bool
  GetVJDAxisExist : Nat → Nat → Bool
  GetVJDAxisMin : Nat → Nat → Int
  GetVJDAxisMax : Nat → Nat → Int
  GetVJDButtonNumber : Nat → Int
  GetVJDDiscPovNumber : Nat → Int
  GetVJDContPovNumber : Nat → Int
  UpdateVJD : Nat → JOYSTICK_POSITION → Bool

/-- A call into the driver, with its arguments. -/
inductive Call where
  | GetVJDStatus (rID : Nat)
  | AcquireVJD (rID : Nat)
  | GetVJDAxisExist (rID axis : Nat)
  | GetVJDAxisMin (rID axis : Nat)
  | GetVJDAxisMax (rID axis : Nat)
  | GetVJDButtonNumber (rID : Nat)
  | GetVJDDiscPovNumber (rID : Nat)
  | GetVJDContPovNumber (rID : Nat)
  | UpdateVJD (rID : Nat) (data : JOYSTICK_POSITION)

/-- The loop `for i := 0; i < n; i++ { body }` as a state transformer. -/
def forLoop {σ : Type} : Nat → (Nat → σ → σ) → σ → σ
  | 0, _, s => s
  | n + 1, body, s => body n (forLoop n body s)

/-! ## Device -/

/-- The method `Reset`: axes centered, `Buttons` and the hat words off. -/
def Device.Reset (d : Device) : Device :=
  let center : Int := 0x4000
  let hatoff : Nat := 0xffffffff
  { d with st := { d.st with
      Throttle := center, Rudder := center, Aileron := center,
      AxisX := center, AxisY := center, AxisZ := center,
      AxisXRot := center, AxisYRot := center, AxisZRot := center,
      Slider := center, Dial := center, Wheel := center,
      AxisVX := center, AxisVY := center, AxisVZ := center,
      AxisVBRX := center, AxisVBRY := center, AxisVBRZ := center,
      Buttons := 0,
      Hats := hatoff, HatsEx1 := hatoff, HatsEx2 := hatoff, HatsEx3 := hatoff } }

/-- The accessor `Device.Axis`. -/
def Device.Axis (d : Device) (n : Int) : Option Axis :=
  if 0 ≤ n ∧ n < (d.axes.length : Int) then d.axes.getD n.toNat none
  else d.invalidaxis

/-- The accessor `Device.Button`. -/
def Device.Button (d : Device) (n : Int) : Option Button :=
  if 0 ≤ n ∧ n < (d.buttons.length : Int) then d.buttons.getD n.toNat none
  else d.invalidbutton

/-- The accessor `Device.not_yet_suppoerted_Hat`. -/
def Device.not_yet_suppoerted_Hat (d : Device) (n : Int) : Option Hat :=
  if 0 ≤ n ∧ n < (d.hats.length : Int) then d.hats.get? n.toNat
  else d.invalidhat

/-- The method `Device.Update`: the result and the call made. -/
def Device.Update (drv : Driver) (d : Device) : Option Error × List Call :=
  (if drv.UpdateVJD d.rid d.st then none else some Error.ErrUpdate,
   [Call.UpdateVJD d.rid d.st])

/-- The method `Device.button`: the word and mask of button `i`. The receiver
is used only to take the addresses of its fields, so it is not a parameter. -/
def Device.button (i : Int) : Option I32Ref × Int :=
  let q := Int.tdiv i 32
  let p : Option I32Ref :=
    if q = 0 then some .Buttons
    else if q = 1 then some .ButtonsEx1
    else if q = 2 then some .ButtonsEx2
    else if q = 3 then some .ButtonsEx3
    else none
  (p, shl32 1 (toUint (Int.tmod i 32)))

/-- The method `Device.hat`: the word and shift of hat `i`. The receiver is
used only to take the addresses of its fields, so it is not a parameter. -/
def Device.hat (i : Int) : Option U32Ref × Nat :=
  let shift := (toUint (Int.tmod i 2) * 16) % 18446744073709551616
  let q := Int.tdiv i 2
  let p : Option U32Ref :=
    if q = 0 then some .Hats
    else if q = 1 then some .HatsEx1
    else if q = 2 then some .HatsEx2
    else if q = 3 then some .HatsEx3
    else none
  (p, shift)

/-- The `switch i` of the axis loop of `init`: the field `a.p` is pointed at. -/
def axisPtr (i : Int) : I32Ref :=
  if i = AxisX then .AxisX
  else if i = AxisY then .AxisY
  else if i = AxisZ then .AxisZ
  else if i = AxisRX then .AxisXRot
  else if i = AxisRY then .AxisYRot
  else if i = AxisRZ then .AxisZRot
  else if i = Slider0 then .Slider
  else if i = Slider1 then .Dial
  else .noi

/-- One pass of the axis loop of `init`. -/
def initAxisBody (drv : Driver) (i : Nat) (s : Device × List Call) : Device × List Call :=
  let d := s.1
  let axn := axisNumber i
  let ex := drv.GetVJDAxisExist d.rid axn
  let log := s.2 ++ [Call.GetVJDAxisExist d.rid axn]
  let p : I32Ref := axisPtr i
  if ex then
    let a : Axis := { p := p, «exists» := ex,
                      min := drv.GetVJDAxisMin d.rid axn, max := drv.GetVJDAxisMax d.rid axn }
    ({ d with axes := d.axes.set i (some a) },
     log ++ [Call.GetVJDAxisMin d.rid axn, Call.GetVJDAxisMax d.rid axn])
  else
    let a : Axis := { p := p, «exists» := ex, min := 0, max := 0 }
    ({ d with axes := d.axes.set i (some a) }, log)

/-- One pass of the button loop of `init`. -/
def initButtonBody (i : Nat) (d : Device) : Device :=
  match Device.button i with
  | (some p, mask) =>
    { d with buttons := d.buttons ++ [some { p := p, «exists» := true, mask := mask }] }
  | (none, _) => { d with buttons := d.buttons ++ [d.invalidbutton] }

/-- One pass of the discrete hat loop of `init`. -/
def initDiscHatBody (i : Nat) (d : Device) : Device :=
  match Device.hat i with
  | (some p, shift) =>
    { d with hats := d.hats ++ [Hat.discrete { p := p, «exists» := true, shift := shift }] }
  | (none, _) => d

/-- One pass of the continuous hat loop of `init`. -/
def initContHatBody (i : Nat) (d : Device) : Device :=
  match Device.hat i with
  | (some p, shift) =>
    { d with hats := d.hats ++ [Hat.continuous { p := p, «exists» := true, shift := shift }] }
  | (none, _) => d

/-- The method `Device.init`: the device as left by it, the error returned, and
the driver calls made, in order. -/
def Device.init (drv : Driver) (d : Device) : Device × Option Error × List Call :=
  let d := { d with st := { d.st with Device := d.rid % 256 } }
  let status := drv.GetVJDStatus d.rid
  let log := [Call.GetVJDStatus d.rid]
  if status = VJD_STAT_OWN then (d, some Error.ErrDeviceAlreadyOwned, log)
  else
    let err : Option Error :=
      if status = VJD_STAT_FREE then none
      else if status = VJD_STAT_BUSY then some Error.ErrDeviceBusy
      else if status = VJD_STAT_MISS then some Error.ErrDeviceMissing
      else some Error.ErrDeviceUnknown
    let log := log ++ [Call.AcquireVJD d.rid]
    if !drv.AcquireVJD d.rid then (d, err, log)
    else
      let d := { d with
        invalidaxis := some { p := .noi, «exists» := false, min := 0, max := 0 },
        invalidbutton := some { p := .noi, «exists» := false, mask := 0 },
        invalidhat := some (Hat.discrete { p := .nou, «exists» := false, shift := 0 }) }
      let d := { d with axes := List.replicate MaxAxis.toNat none }
      let s := forLoop MaxAxis.toNat (initAxisBody drv) (d, log)
      let d := s.1
      let log := s.2
      let n := drv.GetVJDButtonNumber d.rid
      let log := log ++ [Call.GetVJDButtonNumber d.rid]
      let d := forLoop n.toNat initButtonBody d
      let n := drv.GetVJDDiscPovNumber d.rid
      let log := log ++ [Call.GetVJDDiscPovNumber d.rid]
      let d := forLoop n.toNat initDiscHatBody d
      let n := drv.GetVJDContPovNumber d.rid
      let log := log ++ [Call.GetVJDContPovNumber d.rid]
      let d := forLoop n.toNat initContHatBody d
      (d, none, log)

/-- The zero `Device` with the given rid, as `Acquire` allocates it. -/
def Device.new (rid : Nat) : Device :=
  { rid := rid, st := JOYSTICK_POSITION.zero, noi := 0, nou := 0,
    axes := [], buttons := [], hats := [],
    invalidaxis := none, invalidbutton := none, invalidhat := none }

/-- The function `Acquire`: the device and error returned, and the driver
calls made, in order. -/
def Acquire (drv : Driver) (rid : Nat) : Option Device × Option Error × List Call :=
  let d := Device.new rid
  let r := d.init drv
  match r.2.1 with
  | some err => (none, some err, r.2.2)
  | none =>
    let d := r.1.Reset
    let u := d.Update drv
    (some d, none, r.2.2 ++ u.2)

/-! ## Observations on the state buffer -/

/-- The 16-bit half-word of a hat word at the given shift. -/
def halfWord (w shift : Nat) : Nat := (w >>> shift) % 65536

/-- The `int32` field of the state buffer holding button `j`: `Buttons` for
buttons 0..31, `ButtonsEx1`, `ButtonsEx2`, `ButtonsEx3` for the next three
groups of 32. -/
def buttonWord (j : Nat) : I32Ref :=
  if j / 32 = 0 then .Buttons
  else if j / 32 = 1 then .ButtonsEx1
  else if j / 32 = 2 then .ButtonsEx2
  else .ButtonsEx3

/-- The state of button `j` as stored: bit `j % 32` of its button word. -/
def Device.buttonBit (d : Device) (j : Nat) : Bool :=
  (toUint32 (d.load32 (buttonWord j))).testBit (j % 32)

/-- Two devices agree on every field of the state buffer, and on the discard
slots, except possibly at the `int32` location `p`. -/
def sameExcept32 (d d1 : Device) (p : I32Ref) : Prop :=
  (∀ r : I32Ref, r ≠ p → d1.load32 r = d.load32 r) ∧
  (∀ r : U32Ref, d1.loadU32 r = d.loadU32 r) ∧
  d1.st.Device = d.st.Device

/-- A field of the state buffer as handed to the driver: its name, its width
in bits, whether it is signed, and its value. -/
structure Field where
  name : String
  bits : Nat
  signed : Bool
  value : Int
  deriving DecidableEq

/-- The fields of a `JOYSTICK_POSITION` in the order of the struct declaration,
which is the order they are laid out in the buffer `UpdateVJD` receives. -/
def JOYSTICK_POSITION.fields (st : JOYSTICK_POSITION) : List Field :=
  [ ⟨"Device", 8, false, st.Device⟩,
    ⟨"Throttle", 32, true, st.Throttle⟩,
    ⟨"Rudder", 32, true, st.Rudder⟩,
    ⟨"Aileron", 32, true, st.Aileron⟩,
    ⟨"AxisX", 32, true, st.AxisX⟩,
    ⟨"AxisY", 32, true, st.AxisY⟩,
    ⟨"AxisZ", 32, true, st.AxisZ⟩,
    ⟨"AxisXRot", 32, true, st.AxisXRot⟩,
    ⟨"AxisYRot", 32, true, st.AxisYRot⟩,
    ⟨"AxisZRot", 32, true, st.AxisZRot⟩,
    ⟨"Slider", 32, true, st.Slider⟩,
    ⟨"Dial", 32, true, st.Dial⟩,
    ⟨"Wheel", 32, true, st.Wheel⟩,
    ⟨"AxisVX", 32, true, st.AxisVX⟩,
    ⟨"AxisVY", 32, true, st.AxisVY⟩,
    ⟨"AxisVZ", 32, true, st.AxisVZ⟩,
    ⟨"AxisVBRX", 32, true, st.AxisVBRX⟩,
    ⟨"AxisVBRY", 32, true, st.AxisVBRY⟩,
    ⟨"AxisVBRZ", 32, true, st.AxisVBRZ⟩,
    ⟨"Buttons", 32, true, st.Buttons⟩,
    ⟨"Hats", 32, false, st.Hats⟩,
    ⟨"HatsEx1", 32, false, st.HatsEx1⟩,
    ⟨"HatsEx2", 32, false, st.HatsEx2⟩,
    ⟨"HatsEx3", 32, false, st.HatsEx3⟩,
    ⟨"ButtonsEx1", 32, true, st.ButtonsEx1⟩,
    ⟨"ButtonsEx2", 32, true, st.ButtonsEx2⟩,
    ⟨"ButtonsEx3", 32, true, st.ButtonsEx3⟩ ]

/-- The buffer a call to `UpdateVJD` hands to the driver, as its fields in
order; nothing for any other call. -/
def Call.submitted : Call → List Field
  | .UpdateVJD _ data => data.fields
  | _ => []

/-- The neutral state of the buffer: every axis slot at the center 0x4000, every
button word 0, every hat word all ones. -/
def JOYSTICK_POSITION.isNeutral (st : JOYSTICK_POSITION) : Prop :=
  (st.Throttle = 0x4000 ∧ st.Rudder = 0x4000 ∧ st.Aileron = 0x4000
    ∧ st.AxisX = 0x4000 ∧ st.AxisY = 0x4000 ∧ st.AxisZ = 0x4000
    ∧ st.AxisXRot = 0x4000 ∧ st.AxisYRot = 0x4000 ∧ st.AxisZRot = 0x4000
    ∧ st.Slider = 0x4000 ∧ st.Dial = 0x4000 ∧ st.Wheel = 0x4000
    ∧ st.AxisVX = 0x4000 ∧ st.AxisVY = 0x4000 ∧ st.AxisVZ = 0x4000
    ∧ st.AxisVBRX = 0x4000 ∧ st.AxisVBRY = 0x4000 ∧ st.AxisVBRZ = 0x4000)
  ∧ (st.Buttons = 0 ∧ st.ButtonsEx1 = 0 ∧ st.ButtonsEx2 = 0 ∧ st.ButtonsEx3 = 0)
  ∧ (st.Hats = 0xFFFFFFFF ∧ st.HatsEx1 = 0xFFFFFFFF ∧ st.HatsEx2 = 0xFFFFFFFF
    ∧ st.HatsEx3 = 0xFFFFFFFF)

/-! ## Sample drivers and states -/

/-- A driver answering every device alike: the given status and acquire
result, every axis present or absent as given, the given control counts, and
accepting every update. -/
def sampleDriver (status : Int) (acquire axes : Bool) (nbutton ndisc ncont : Int) : Driver :=
  { GetVJDStatus := fun _ => status
    AcquireVJD := fun _ => acquire
    GetVJDAxisExist := fun _ _ => axes
    GetVJDAxisMin := fun _ _ => 0
    GetVJDAxisMax := fun _ _ => 0x7fff
    GetVJDButtonNumber := fun _ => nbutton
    GetVJDDiscPovNumber := fun _ => ndisc
    GetVJDContPovNumber := fun _ => ncont
    UpdateVJD := fun _ _ => true }

/-- The sample driver with status free, granting the acquire call, with one
button, and rejecting every update. -/
def rejectingDriver : Driver :=
  { sampleDriver VJD_STAT_FREE true true 1 0 0 with UpdateVJD := fun _ _ => false }

/-! ## What discovery builds, in closed form -/

/-- The axis handle the axis loop stores at index `i`. -/
def discoveredAxis (drv : Driver) (rid : Nat) (i : Nat) : Axis :=
  { p := axisPtr i, «exists» := drv.GetVJDAxisExist rid (axisNumber i),
    min := if drv.GetVJDAxisExist rid (axisNumber i) then drv.GetVJDAxisMin rid (axisNumber i) else 0,
    max := if drv.GetVJDAxisExist rid (axisNumber i) then drv.GetVJDAxisMax rid (axisNumber i) else 0 }

/-- The entry the button loop appends at index `i`. -/
def discoveredButton (inv : Option Button) (i : Nat) : Option Button :=
  match Device.button i with
  | (some p, mask) => some { p := p, «exists» := true, mask := mask }
  | (none, _) => inv

/-- The entry the discrete hat loop appends at pass `i`, if any. -/
def discoveredDiscHat (i : Nat) : Option Hat :=
  match Device.hat i with
  | (some p, shift) => some (Hat.discrete { p := p, «exists» := true, shift := shift })
  | (none, _) => none

/-- The entry the continuous hat loop appends at pass `i`, if any. -/
def discoveredContHat (i : Nat) : Option Hat :=
  match Device.hat i with
  | (some p, shift) => some (Hat.continuous { p := p, «exists» := true, shift := shift })
  | (none, _) => none

/-- The driver calls one pass of the axis loop makes for axis `i`. -/
def discoveredAxisCalls (drv : Driver) (rid : Nat) (i : Nat) : List Call :=
  Call.GetVJDAxisExist rid (axisNumber i) ::
    (if drv.GetVJDAxisExist rid (axisNumber i) then
      [Call.GetVJDAxisMin rid (axisNumber i), Call.GetVJDAxisMax rid (axisNumber i)]
    else [])

/-- The driver calls of capability discovery, in order: the axis loop, then the
button count and the two hat counts. -/
def discoveryCalls (drv : Driver) (rid : Nat) : List Call :=
  discoveredAxisCalls drv rid 0 ++ discoveredAxisCalls drv rid 1
    ++ discoveredAxisCalls drv rid 2 ++ discoveredAxisCalls drv rid 3
    ++ discoveredAxisCalls drv rid 4 ++ discoveredAxisCalls drv rid 5
    ++ discoveredAxisCalls drv rid 6 ++ discoveredAxisCalls drv rid 7
    ++ [Call.GetVJDButtonNumber rid, Call.GetVJDDiscPovNumber rid,
        Call.GetVJDContPovNumber rid]

/-- Whether a driver call is a submission of the state buffer. -/
def Call.isUpdateVJD : Call → Bool
  | .UpdateVJD _ _ => true
  | _ => false

/-- Whether a driver call is a capability query. -/
def Call.isQuery : Call → Bool
  | .GetVJDAxisExist _ _ => true
  | .GetVJDAxisMin _ _ => true
  | .GetVJDAxisMax _ _ => true
  | .GetVJDButtonNumber _ => true
  | .GetVJDDiscPovNumber _ => true
  | .GetVJDContPovNumber _ => true
  | _ => false

/-! ## A model of float32 -/

/-- Bit length by halving, with fuel. -/
def bitLenAux : Nat → Nat → Nat
  | 0, _ => 0
  | fuel + 1, n => if n = 0 then 0 else bitLenAux fuel (n / 2) + 1

/-- The number of bits of `n`: 0 for 0, otherwise one more than the position
of the leading bit. -/
def bitLen (n : Nat) : Nat := bitLenAux n n

/-- Round the magnitude `m / 2^d`, counted in units of the least subnormal, to
the nearest magnitude with at most 24 significant bits and no bit below one
unit, ties to even. The result is again counted in units. -/
def roundNat (m d : Nat) : Nat :=
  let s := max (bitLen m - 24) d
  let q := m / 2 ^ s
  let r := m % 2 ^ s
  let q1 := if 2 ^ s < 2 * r ∨ (2 * r = 2 ^ s ∧ q % 2 = 1) then q + 1 else q
  q1 * 2 ^ (s - d)

/-- A `float32`: a finite value `k * 2^-149` given by the integer k, the
infinities, or NaN. Every finite `float32` is a multiple of the least subnormal
`2^-149`. Negative zero is not told apart from zero; no operation used here
tells them apart. -/
inductive F32 where
  | fin (k : Int)
  | posInf
  | negInf
  | nan
  deriving DecidableEq

/-- The value 1.0 in units of `2^-149`, that is `2^149`. -/
def f32One : Nat := 713623846352979940529142984724747568191373312

/-- The least magnitude that overflows, `2^128`, in units of `2^-149`: `2^277`. -/
def f32Limit : Nat :=
  242833611528216133864932738352939863330300854881517440156476551217363035650651062272

/-- Round the exact value `M / 2^d` units to `float32`: to nearest, ties to
even, overflowing to an infinity. -/
def F32.roundAt (M : Int) (d : Nat) : F32 :=
  let p := roundNat M.natAbs d
  if f32Limit ≤ p then (if M < 0 then .negInf else .posInf)
  else .fin (if M < 0 then -(p : Int) else (p : Int))

/-- The comparison `a < b` on `float32`. -/
def F32.lt : F32 → F32 → Bool
  | .nan, _ => false
  | _, .nan => false
  | .fin a, .fin b => decide (a < b)
  | .fin _, .posInf => true
  | .fin _, .negInf => false
  | .posInf, _ => false
  | .negInf, .negInf => false
  | .negInf, _ => true

/-- The sum `a + b` on `float32`. -/
def F32.add : F32 → F32 → F32
  | .nan, _ => .nan
  | _, .nan => .nan
  | .fin a, .fin b => F32.roundAt (a + b) 0
  | .posInf, .negInf => .nan
  | .negInf, .posInf => .nan
  | .posInf, _ => .posInf
  | _, .posInf => .posInf
  | .negInf, _ => .negInf
  | _, .negInf => .negInf

/-- The product of a finite value and an infinity of the given sign. -/
def F32.mulInf (a : Int) (positive : Bool) : F32 :=
  if a = 0 then .nan
  else if (decide (0 < a)) = positive then .posInf
  else .negInf

/-- The product `a * b` on `float32`. -/
def F32.mul : F32 → F32 → F32
  | .nan, _ => .nan
  | _, .nan => .nan
  | .fin a, .fin b => F32.roundAt (a * b) 149
  | .fin a, .posInf => F32.mulInf a true
  | .fin a, .negInf => F32.mulInf a false
  | .posInf, .fin b => F32.mulInf b true
  | .negInf, .fin b => F32.mulInf b false
  | .posInf, .posInf => .posInf
  | .negInf, .negInf => .posInf
  | .posInf, .negInf => .negInf
  | .negInf, .posInf => .negInf

/-- The `float32` of an integer constant. -/
def F32.ofNat (n : Nat) : F32 := F32.roundAt ((n : Int) * (f32One : Int)) 0

/-- The conversion `int(x)`: truncation toward zero. For NaN, the infinities
and values outside the range of `int` Go leaves the result to the
implementation; this is the amd64 result, the least `int`. -/
def F32.toInt : F32 → Int
  | .fin k =>
    let t := Int.tdiv k (f32One : Int)
    if -9223372036854775808 ≤ t ∧ t < 9223372036854775808 then t
    else -9223372036854775808
  | _ => -9223372036854775808

/-- The operations of `float32` as `Setf` and `Setuf` use them. -/
def binary32 : Float32Ops F32 :=
  { lt := F32.lt
    add := F32.add
    mul := F32.mul
    ofNat := F32.ofNat
    toInt := F32.toInt }

/-! ## Machine integer lemmas -/

theorem toUint32_toInt32 (x : Int) : toUint32 (toInt32 x) = toUint32 x := by
  unfold toUint32 toInt32; omega

theorem toUint32_ofNat (n : Nat) : toUint32 (Int.ofNat n) = n % 4294967296 := by
  unfold toUint32; simp; omega

theorem toUint32_lt (x : Int) : toUint32 x < 4294967296 := by
  unfold toUint32; omega

theorem andInt_0x7fff (v : Int) : andInt v 0x7fff = v % 32768 := by
  unfold andInt
  have h1 : toUint64 0x7fff = 2 ^ 15 - 1 := by decide
  rw [h1, Nat.and_pow_two_sub_one_eq_mod]
  unfold toInt64 toUint64
  simp
  omega

/-! ## Pointer lemmas -/

theorem load32_store32_same (d : Device) (p : I32Ref) (v : Int) :
    (d.store32 p v).load32 p = v := by
  cases p <;> rfl

theorem load32_store32_ne (d : Device) (p r : I32Ref) (v : Int) (h : r ≠ p) :
    (d.store32 p v).load32 r = d.load32 r := by
  cases p <;> cases r <;> first | rfl | exact absurd rfl h

theorem loadU32_store32 (d : Device) (p : I32Ref) (r : U32Ref) (v : Int) :
    (d.store32 p v).loadU32 r = d.loadU32 r := by
  cases p <;> cases r <;> rfl

theorem stDevice_store32 (d : Device) (p : I32Ref) (v : Int) :
    (d.store32 p v).st.Device = d.st.Device := by
  cases p <;> rfl

/-! ## Hat setters -/

/-- C1, at a failing input: a discrete hat at shift 0 of a word holding
0x12345678 is set to North, and the half-word at shift 16 goes from 0x1234 to
0; a continuous hat at shift 16 of the same word is set to 0 degrees, and the
half-word at shift 0 goes from 0x5678 to 0. -/
theorem C1_hat_write_clears_other_half_word :
    halfWord ((Device.new 1).storeU32 .Hats 0x12345678).st.Hats 16 = 0x1234
    ∧ halfWord (discreteHat.SetDiscrete ⟨.Hats, 0, true⟩ HatN
        ((Device.new 1).storeU32 .Hats 0x12345678)).st.Hats 16 = 0
    ∧ halfWord ((Device.new 1).storeU32 .Hats 0x12345678).st.Hats 0 = 0x5678
    ∧ halfWord (continuousHat.SetDegp ⟨.Hats, 16, true⟩ 0
        ((Device.new 1).storeU32 .Hats 0x12345678)).st.Hats 0 = 0 := by
  decide

/-! ## Reset -/

/-- C2, at a failing input: on a device with 40 buttons, button 32 is pressed
and the device is reset; the word `ButtonsEx1` still holds 1 and button 32
still reads true. -/
theorem C2_Reset_keeps_extension_button_words :
    (Acquire (sampleDriver VJD_STAT_FREE true true 40 0 0) 1).1.bind
      (fun d => (d.Button 32).map (fun b =>
        ((b.Set true d).Reset.st.ButtonsEx1, (b.Set true d).Reset.buttonBit 32)))
      = some (1, true) := by
  decide

/-! ## Acquire -/

/-- C3, at a failing input: the status is free and the driver refuses the
acquire call; `Acquire` returns a device and a nil error, the device having no
axis list and no handle for invalid axes. -/
theorem C3_Acquire_free_refused_returns_device :
    (sampleDriver VJD_STAT_FREE false true 40 0 0).AcquireVJD 1 = false
    ∧ (Acquire (sampleDriver VJD_STAT_FREE false true 40 0 0) 1).2.1 = none
    ∧ (Acquire (sampleDriver VJD_STAT_FREE false true 40 0 0) 1).1.map
        (fun d => (d.axes, d.buttons, d.hats, d.invalidaxis, d.invalidbutton))
      = some ([], [], [], none, none) := by
  exact ⟨rfl, rfl, rfl⟩

/-! ## Axis setters -/

/-- C4: for every integer v and every axis, after `Setc(v)` the slot of the
axis holds v when 0 <= v <= 0x7FFF, 0 when v < 0, and 0x7FFF when v > 0x7FFF. -/
theorem C4_Setc_clamps (a : Axis) (v : Int) (d : Device) :
    (a.Setc v d).load32 a.p = if v < 0 then 0 else if 0x7fff < v then 0x7fff else v := by
  unfold Axis.Setc Axis.Setu
  simp only [load32_store32_same, andInt_0x7fff]
  unfold toInt32
  split_ifs <;> omega


/-! ## Discovery lemmas -/

theorem initAxisBody_fst (drv : Driver) (i : Nat) (s : Device × List Call) :
    (initAxisBody drv i s).1
      = { s.1 with axes := s.1.axes.set i (some (discoveredAxis drv s.1.rid i)) } := by
  unfold initAxisBody discoveredAxis
  by_cases h : drv.GetVJDAxisExist s.1.rid (axisNumber i) = true
  · simp [h]
  · simp [h]

theorem forLoop_initAxisBody (drv : Driver) (d : Device) (log : List Call)
    (h : d.axes = List.replicate 8 none) :
    (forLoop 8 (initAxisBody drv) (d, log)).1
      = { d with axes := (List.range 8).map (fun i => some (discoveredAxis drv d.rid i)) } := by
  simp only [forLoop, initAxisBody_fst, h]
  rfl

theorem forLoop_initButtonBody (k : Nat) (d : Device) :
    forLoop k initButtonBody d
      = { d with buttons := d.buttons ++ (List.range k).map (discoveredButton d.invalidbutton) } := by
  induction k with
  | zero => simp [forLoop]
  | succ k ih =>
    simp only [forLoop, ih, initButtonBody, List.range_succ, List.map_append, List.map_cons,
      List.map_nil, discoveredButton]
    rcases hb : Device.button (k : Int) with ⟨_ | p, mask⟩ <;> simp [List.append_assoc]

theorem forLoop_initDiscHatBody (k : Nat) (d : Device) :
    forLoop k initDiscHatBody d
      = { d with hats := d.hats ++ (List.range k).filterMap discoveredDiscHat } := by
  induction k with
  | zero => simp [forLoop]
  | succ k ih =>
    simp only [forLoop, ih, initDiscHatBody, List.range_succ, List.filterMap_append]
    rcases hb : Device.hat (k : Int) with ⟨_ | p, shift⟩ <;>
      simp [List.append_assoc, discoveredDiscHat, hb]

theorem forLoop_initContHatBody (k : Nat) (d : Device) :
    forLoop k initContHatBody d
      = { d with hats := d.hats ++ (List.range k).filterMap discoveredContHat } := by
  induction k with
  | zero => simp [forLoop]
  | succ k ih =>
    simp only [forLoop, ih, initContHatBody, List.range_succ, List.filterMap_append]
    rcases hb : Device.hat (k : Int) with ⟨_ | p, shift⟩ <;>
      simp [List.append_assoc, discoveredContHat, hb]


/-- The device `init` leaves when the status is not owned-by-self and the
driver grants the acquire call. -/
theorem init_acquired (drv : Driver) (rid : Nat)
    (hst : drv.GetVJDStatus rid ≠ VJD_STAT_OWN) (hacq : drv.AcquireVJD rid = true) :
    ((Device.new rid).init drv).1 =
      { rid := rid
        st := { JOYSTICK_POSITION.zero with Device := rid % 256 }
        noi := 0
        nou := 0
        axes := (List.range 8).map (fun i => some (discoveredAxis drv rid i))
        buttons := (List.range (drv.GetVJDButtonNumber rid).toNat).map
          (discoveredButton (some { p := .noi, «exists» := false, mask := 0 }))
        hats := (List.range (drv.GetVJDDiscPovNumber rid).toNat).filterMap discoveredDiscHat
          ++ (List.range (drv.GetVJDContPovNumber rid).toNat).filterMap discoveredContHat
        invalidaxis := some { p := .noi, «exists» := false, min := 0, max := 0 }
        invalidbutton := some { p := .noi, «exists» := false, mask := 0 }
        invalidhat := some (Hat.discrete { p := .nou, «exists» := false, shift := 0 }) }
    ∧ ((Device.new rid).init drv).2.1 = none := by
  have h8 : MaxAxis.toNat = 8 := rfl
  unfold Device.init
  simp only [Device.new, hst, hacq, if_false, Bool.not_true, h8, Bool.false_eq_true]
  rw [forLoop_initAxisBody _ _ _ rfl]
  simp only [forLoop_initButtonBody, forLoop_initDiscHatBody, forLoop_initContHatBody]
  simp


/-- What `Acquire` returns when the status is not owned-by-self and the driver
grants the acquire call: the device left by `init`, reset, and a nil error. -/
theorem Acquire_acquired (drv : Driver) (rid : Nat)
    (hst : drv.GetVJDStatus rid ≠ VJD_STAT_OWN) (hacq : drv.AcquireVJD rid = true) :
    (Acquire drv rid).1 = some ((Device.new rid).init drv).1.Reset
    ∧ (Acquire drv rid).2.1 = none := by
  have h := (init_acquired drv rid hst hacq).2
  constructor <;> simp [Acquire, h]

theorem sameExcept32_store32 (d : Device) (p : I32Ref) (v : Int) :
    sameExcept32 d (d.store32 p v) p :=
  ⟨fun r hr => load32_store32_ne d p r v hr, fun r => loadU32_store32 d p r v,
    stDevice_store32 d p v⟩

/-- C5, counterexample: on a device whose driver reports no axis as existing,
`Axis(AxisX)` does not exist, yet `Setu(0)` through it changes the field
`AxisX` of the state buffer from 0x4000 to 0. -/
theorem C5_absent_axis_write_reaches_buffer :
    (Acquire (sampleDriver VJD_STAT_FREE true false 0 0 0) 1).1.bind
      (fun d => (d.Axis AxisX).map (fun a => (a.Exists, d.st.AxisX, (a.Setu 0 d).st.AxisX)))
      = some (false, 0x4000, 0) := by
  decide

/-! ## Hats after discovery -/

/-- C6, at a failing input: for a device reporting one discrete and one
continuous hat, the hat list holds a discrete hat and a continuous hat both
bound to word `Hats` at shift 0. -/
theorem C6_continuous_hat_restarts_at_index_zero :
    (Acquire (sampleDriver VJD_STAT_FREE true true 0 1 1) 1).1.map (fun d => d.hats)
      = some [Hat.discrete ⟨.Hats, 0, true⟩, Hat.continuous ⟨.Hats, 0, true⟩] := by
  decide

/-- C7, at a failing input: on a continuous hat at shift 0 whose word holds
0xFFFFFFFF, as after `Reset`, `SetDiscrete(East)` leaves the own half-word
reading 0xFFFF, not 9000; where it holds 0x5678, `SetDiscrete(North)` leaves it
reading 0x5678, not 0. -/
theorem C7_continuous_SetDiscrete_keeps_old_bits :
    (Device.new 1).Reset.st.Hats = 0xFFFFFFFF
    ∧ halfWord (continuousHat.SetDiscrete ⟨.Hats, 0, true⟩ HatE (Device.new 1).Reset).st.Hats 0
        = 0xFFFF
    ∧ halfWord (continuousHat.SetDiscrete ⟨.Hats, 0, true⟩ HatN
        ((Device.new 1).storeU32 .Hats 0x5678)).st.Hats 0 = 0x5678 := by
  decide

/-- C8, at a failing input: on a discrete hat at shift 0 whose word holds
0xFFFFFFFF, as after `Reset`, `SetDegp(13500)` leaves the low nibble of the own
half-word reading 15, not 2. -/
theorem C8_discrete_SetDegp_keeps_old_bits :
    (Device.new 1).Reset.st.Hats = 0xFFFFFFFF
    ∧ halfWord (discreteHat.SetDegp ⟨.Hats, 0, true⟩ 13500 (Device.new 1).Reset).st.Hats 0 % 16
        = 15 := by
  decide

/-! ## Buttons -/

theorem testBit_or32 (w m : Int) (k : Nat) (hk : k < 32) :
    (toUint32 (or32 w m)).testBit k = ((toUint32 w).testBit k || (toUint32 m).testBit k) := by
  unfold or32
  rw [toUint32_toInt32, toUint32_ofNat, show (4294967296 : Nat) = 2 ^ 32 from rfl,
    Nat.testBit_mod_two_pow, Nat.testBit_or]
  simp [hk]

theorem testBit_not32 (m : Int) (k : Nat) (hk : k < 32) :
    (toUint32 (not32 m)).testBit k = !(toUint32 m).testBit k := by
  unfold not32
  rw [toUint32_toInt32, toUint32_ofNat, show (4294967296 : Nat) = 2 ^ 32 from rfl,
    Nat.testBit_mod_two_pow, Nat.testBit_xor, show (4294967295 : Nat) = 2 ^ 32 - 1 from rfl,
    Nat.testBit_two_pow_sub_one]
  simp [hk]

theorem testBit_and32 (w m : Int) (k : Nat) (hk : k < 32) :
    (toUint32 (and32 w m)).testBit k = ((toUint32 w).testBit k && (toUint32 m).testBit k) := by
  unfold and32
  rw [toUint32_toInt32, toUint32_ofNat, show (4294967296 : Nat) = 2 ^ 32 from rfl,
    Nat.testBit_mod_two_pow, Nat.testBit_and]
  simp [hk]

theorem testBit_shl32_one (r k : Nat) (hr : r < 32) (hk : k < 32) :
    (toUint32 (shl32 1 r)).testBit k = decide (r = k) := by
  unfold shl32
  rw [if_neg (by omega), toUint32_toInt32, toUint32_ofNat,
    show (4294967296 : Nat) = 2 ^ 32 from rfl, Nat.testBit_mod_two_pow,
    show toUint32 1 = 1 from rfl, Nat.one_shiftLeft, Nat.testBit_two_pow]
  simp [hk]

theorem button_ofNat (i : Nat) (hi : i < 128) :
    Device.button (i : Int) = (some (buttonWord i), shl32 1 (i % 32)) := by
  have hq : i / 32 = 0 ∨ i / 32 = 1 ∨ i / 32 = 2 ∨ i / 32 = 3 := by omega
  have hu : toUint ((i % 32 : Nat) : Int) = i % 32 := by
    unfold toUint toUint64; omega
  have h1 : Int.tdiv (i : Int) 32 = ((i / 32 : Nat) : Int) := (Int.ofNat_tdiv i 32).symm
  have h2 : Int.tmod (i : Int) 32 = ((i % 32 : Nat) : Int) := (Int.ofNat_tmod i 32).symm
  unfold Device.button buttonWord
  simp only [h1, h2, hu]
  rcases hq with h | h | h | h <;> simp [h]

theorem buttonWord_eq_iff (i j : Nat) (hi : i < 128) (hj : j < 128) :
    buttonWord j = buttonWord i ↔ j / 32 = i / 32 := by
  have hq : i / 32 = 0 ∨ i / 32 = 1 ∨ i / 32 = 2 ∨ i / 32 = 3 := by omega
  have hq2 : j / 32 = 0 ∨ j / 32 = 1 ∨ j / 32 = 2 ∨ j / 32 = 3 := by omega
  unfold buttonWord
  rcases hq with h | h | h | h <;> rcases hq2 with h2 | h2 | h2 | h2 <;> simp [h, h2]

/-- The bit of button `j` after `Set(val)` through the handle of button `i`. -/
theorem buttonBit_Set (i j : Nat) (hi : i < 128) (hj : j < 128) (val : Bool) (d : Device) :
    (Button.Set ⟨buttonWord i, shl32 1 (i % 32), true⟩ val d).buttonBit j
      = if i = j then val else d.buttonBit j := by
  have hk : j % 32 < 32 := Nat.mod_lt _ (by decide)
  have hr : i % 32 < 32 := Nat.mod_lt _ (by decide)
  unfold Device.buttonBit Button.Set
  by_cases hw : buttonWord j = buttonWord i
  · have hq := (buttonWord_eq_iff i j hi hj).1 hw
    cases val
    · simp only [Bool.false_eq_true, if_false, hw, load32_store32_same]
      rw [testBit_and32 _ _ _ hk, testBit_not32 _ _ hk, testBit_shl32_one _ _ hr hk]
      by_cases hij : i = j
      · subst hij; simp
      · have : i % 32 ≠ j % 32 := by omega
        simp [hij, this]
    · simp only [if_true, hw, load32_store32_same]
      rw [testBit_or32 _ _ _ hk, testBit_shl32_one _ _ hr hk]
      by_cases hij : i = j
      · subst hij; simp
      · have : i % 32 ≠ j % 32 := by omega
        simp [hij, this]
  · have hij : i ≠ j := by
      intro h; subst h; exact hw rfl
    cases val <;> simp [hij, load32_store32_ne _ _ _ _ hw]


theorem discoveredButton_lt (inv : Option Button) (i : Nat) (hi : i < 128) :
    discoveredButton inv i = some ⟨buttonWord i, shl32 1 (i % 32), true⟩ := by
  unfold discoveredButton
  rw [button_ofNat i hi]

/-- The handle `Device.Button(i)` of an acquired device, for `i` below the
button count the driver reported. -/
theorem Button_acquired (drv : Driver) (rid : Nat) (i : Nat)
    (hst : drv.GetVJDStatus rid ≠ VJD_STAT_OWN) (hacq : drv.AcquireVJD rid = true)
    (hi : (i : Int) < drv.GetVJDButtonNumber rid) :
    (((Device.new rid).init drv).1.Reset).Button i
      = discoveredButton (some { p := .noi, «exists» := false, mask := 0 }) i := by
  have hlt : i < (drv.GetVJDButtonNumber rid).toNat := by omega
  rw [(init_acquired drv rid hst hacq).1]
  unfold Device.Button Device.Reset
  simp [hi, List.getD_eq_getElem?_getD, List.getElem?_map, List.getElem?_range hlt]

/-- C9: for distinct button indices i and j in 0..127 and every buffer state,
`Set(true)` and `Set(false)` through the handle of button i (the word and mask
`Device.button` gives for i) leave the bit of button j unchanged; buttons 31
and 32 are bit 31 of `Buttons` and bit 0 of `ButtonsEx1`. -/
theorem C9_Button_Set_keeps_other_buttons (i j : Nat) (hi : i < 128) (hj : j < 128)
    (hij : i ≠ j) (d : Device) :
    (∃ p mask, Device.button i = (some p, mask)
      ∧ (Button.Set ⟨p, mask, true⟩ true d).buttonBit j = d.buttonBit j
      ∧ (Button.Set ⟨p, mask, true⟩ false d).buttonBit j = d.buttonBit j)
    ∧ Device.button 31 = (some I32Ref.Buttons, -2147483648)
    ∧ toUint32 (Device.button 31).2 = 2 ^ 31
    ∧ Device.button 32 = (some I32Ref.ButtonsEx1, 1) := by
  refine ⟨⟨buttonWord i, shl32 1 (i % 32), button_ofNat i hi, ?_, ?_⟩, by decide, by decide,
    by decide⟩
  · rw [buttonBit_Set i j hi hj, if_neg hij]
  · rw [buttonBit_Set i j hi hj, if_neg hij]

/-- C9, witness: buttons 31 and 32 on the reset state. -/
theorem C9_Button_Set_keeps_other_buttons_witness :
    (∃ p mask, Device.button (31 : Nat) = (some p, mask)
      ∧ (Button.Set ⟨p, mask, true⟩ true (Device.new 1).Reset).buttonBit 32
          = (Device.new 1).Reset.buttonBit 32
      ∧ (Button.Set ⟨p, mask, true⟩ false (Device.new 1).Reset).buttonBit 32
          = (Device.new 1).Reset.buttonBit 32)
    ∧ Device.button 31 = (some I32Ref.Buttons, -2147483648)
    ∧ toUint32 (Device.button 31).2 = 2 ^ 31
    ∧ Device.button 32 = (some I32Ref.ButtonsEx1, 1) :=
  C9_Button_Set_keeps_other_buttons 31 32 (by decide) (by decide) (by decide)
    (Device.new 1).Reset

/-- C10: on an acquired device whose driver reports N buttons, for every i
below min(N, 128) the handle `Device.Button(i)` exists, points at button word
i/32 (`Buttons`, `ButtonsEx1`, `ButtonsEx2`, `ButtonsEx3`) and has mask
`1 << (i % 32)`; from every buffer state, bit i % 32 of that word is 1 after
`Set(true)` and 0 after `Set(false)`. -/
theorem C10_Button_binding_and_Set (drv : Driver) (rid : Nat) (i : Nat)
    (hst : drv.GetVJDStatus rid ≠ VJD_STAT_OWN) (hacq : drv.AcquireVJD rid = true)
    (hi : (i : Int) < min (drv.GetVJDButtonNumber rid) 128) :
    ∃ d b, (Acquire drv rid).1 = some d ∧ (Acquire drv rid).2.1 = none
      ∧ d.Button i = some b
      ∧ b.Exists = true
      ∧ some b.p = [I32Ref.Buttons, I32Ref.ButtonsEx1, I32Ref.ButtonsEx2,
          I32Ref.ButtonsEx3].get? (i / 32)
      ∧ b.mask = shl32 1 (i % 32)
      ∧ ∀ d1 : Device,
          (toUint32 ((b.Set true d1).load32 b.p)).testBit (i % 32) = true
          ∧ (toUint32 ((b.Set false d1).load32 b.p)).testBit (i % 32) = false := by
  have hN : (i : Int) < drv.GetVJDButtonNumber rid := lt_of_lt_of_le hi (min_le_left _ _)
  have h128 : i < 128 := by
    have := lt_of_lt_of_le hi (min_le_right _ _)
    omega
  obtain ⟨h1, h2⟩ := Acquire_acquired drv rid hst hacq
  refine ⟨_, ⟨buttonWord i, shl32 1 (i % 32), true⟩, h1, h2, ?_, rfl, ?_, rfl, ?_⟩
  · rw [Button_acquired drv rid i hst hacq hN, discoveredButton_lt _ i h128]
  · have hq : i / 32 = 0 ∨ i / 32 = 1 ∨ i / 32 = 2 ∨ i / 32 = 3 := by omega
    unfold buttonWord
    rcases hq with h | h | h | h <;> simp [h]
  · intro d1
    have ht := buttonBit_Set i i h128 h128 true d1
    have hf := buttonBit_Set i i h128 h128 false d1
    simp only [if_true] at ht hf
    exact ⟨ht, hf⟩

/-- C10, witness: button 39 of a device reporting 40 buttons. -/
theorem C10_Button_binding_and_Set_witness :
    ∃ d b, (Acquire (sampleDriver VJD_STAT_FREE true true 40 0 0) 1).1 = some d
      ∧ (Acquire (sampleDriver VJD_STAT_FREE true true 40 0 0) 1).2.1 = none
      ∧ d.Button (39 : Nat) = some b
      ∧ b.Exists = true
      ∧ some b.p = [I32Ref.Buttons, I32Ref.ButtonsEx1, I32Ref.ButtonsEx2,
          I32Ref.ButtonsEx3].get? (39 / 32)
      ∧ b.mask = shl32 1 (39 % 32)
      ∧ ∀ d1 : Device,
          (toUint32 ((b.Set true d1).load32 b.p)).testBit (39 % 32) = true
          ∧ (toUint32 ((b.Set false d1).load32 b.p)).testBit (39 % 32) = false :=
  C10_Button_binding_and_Set (sampleDriver VJD_STAT_FREE true true 40 0 0) 1 39
    (by decide) rfl (by decide)

/-! ## Axis encodings -/

/-- The value `Setu` leaves in the slot of the axis. -/
theorem Setu_load32 (a : Axis) (v : Int) (d : Device) :
    (a.Setu v d).load32 a.p = v % 32768 := by
  unfold Axis.Setu
  rw [load32_store32_same, andInt_0x7fff]
  unfold toInt32
  omega

theorem toInt64_emod (x : Int) : toInt64 x % 32768 = x % 32768 := by
  unfold toInt64; omega

theorem Seti_eq_Setu (a : Axis) (w : Int) (d : Device) :
    a.Seti w d = a.Setu (w - 0x4000) d := by
  unfold Axis.Seti Axis.Setu
  rw [andInt_0x7fff, andInt_0x7fff, toInt64_emod]

/-- C11: for every integer w, `Seti(w)` stores what `Setu(w - 0x4000)` stores;
for v with -0x4000 <= v <= 0x3FFF the stored value is v + 0x4000; `Seti(0)`
stores 0x4000, `Seti(-0x4000)` stores 0 and `Seti(0x3FFF)` stores 0x7FFF. -/
theorem C11_Seti_offset (a : Axis) (d : Device) (v : Int)
    (hlo : -0x4000 ≤ v) (hhi : v ≤ 0x3fff) :
    (∀ w : Int, a.Seti w d = a.Setu (w - 0x4000) d)
    ∧ (a.Seti v d).load32 a.p = v + 0x4000
    ∧ (a.Seti 0 d).load32 a.p = 0x4000
    ∧ (a.Seti (-0x4000) d).load32 a.p = 0
    ∧ (a.Seti 0x3fff d).load32 a.p = 0x7fff := by
  refine ⟨fun w => Seti_eq_Setu a w d, ?_, ?_, ?_, ?_⟩
  · rw [Seti_eq_Setu, Setu_load32]; omega
  · rw [Seti_eq_Setu, Setu_load32]; decide
  · rw [Seti_eq_Setu, Setu_load32]; decide
  · rw [Seti_eq_Setu, Setu_load32]; decide

/-- C11, witness: the axis X of the zero device, at v = -5. -/
theorem C11_Seti_offset_witness :
    (-0x4000 ≤ (-5 : Int) ∧ (-5 : Int) ≤ 0x3fff)
    ∧ (∀ w : Int, Axis.Seti ⟨.AxisX, true, 0, 0x7fff⟩ w (Device.new 1)
        = Axis.Setu ⟨.AxisX, true, 0, 0x7fff⟩ (w - 0x4000) (Device.new 1))
    ∧ (Axis.Seti ⟨.AxisX, true, 0, 0x7fff⟩ (-5) (Device.new 1)).load32 .AxisX = -5 + 0x4000
    ∧ (Axis.Seti ⟨.AxisX, true, 0, 0x7fff⟩ 0 (Device.new 1)).load32 .AxisX = 0x4000
    ∧ (Axis.Seti ⟨.AxisX, true, 0, 0x7fff⟩ (-0x4000) (Device.new 1)).load32 .AxisX = 0
    ∧ (Axis.Seti ⟨.AxisX, true, 0, 0x7fff⟩ 0x3fff (Device.new 1)).load32 .AxisX = 0x7fff :=
  ⟨by decide, C11_Seti_offset ⟨.AxisX, true, 0, 0x7fff⟩ (Device.new 1) (-5) (by decide)
    (by decide)⟩

/-- C12: for every axis, every buffer state and every argument, the value in
the slot of the axis after `Setu`, `Seti`, `Setc`, `Setf` or `Setuf` lies in
[0, 0x7FFF], whatever the `float32` operations compute; and `Setu(v)` stores
exactly `v & 0x7FFF`. -/
theorem C12_axis_setters_store_in_range {F : Type} (fl : Float32Ops F) (a : Axis)
    (d : Device) (v : Int) (x : F) :
    (0 ≤ (a.Setu v d).load32 a.p ∧ (a.Setu v d).load32 a.p ≤ 0x7fff)
    ∧ (0 ≤ (a.Seti v d).load32 a.p ∧ (a.Seti v d).load32 a.p ≤ 0x7fff)
    ∧ (0 ≤ (a.Setc v d).load32 a.p ∧ (a.Setc v d).load32 a.p ≤ 0x7fff)
    ∧ (0 ≤ (a.Setf fl x d).load32 a.p ∧ (a.Setf fl x d).load32 a.p ≤ 0x7fff)
    ∧ (0 ≤ (a.Setuf fl x d).load32 a.p ∧ (a.Setuf fl x d).load32 a.p ≤ 0x7fff)
    ∧ (a.Setu v d).load32 a.p = andInt v 0x7fff := by
  have hr : ∀ w : Int, 0 ≤ (a.Setu w d).load32 a.p ∧ (a.Setu w d).load32 a.p ≤ 0x7fff := by
    intro w
    rw [Setu_load32]
    omega
  refine ⟨hr v, ?_, ?_, ?_, ?_, ?_⟩
  · rw [Seti_eq_Setu]; exact hr _
  · exact hr _
  · exact hr _
  · exact hr _
  · rw [Setu_load32, andInt_0x7fff]


/-! ## The driver calls of init and Acquire -/

theorem initAxisBody_snd (drv : Driver) (i : Nat) (s : Device × List Call) :
    (initAxisBody drv i s).2 = s.2 ++ discoveredAxisCalls drv s.1.rid i := by
  unfold initAxisBody discoveredAxisCalls
  by_cases h : drv.GetVJDAxisExist s.1.rid (axisNumber i) = true
  · simp [h]
  · simp [h]

theorem initAxisBody_rid (drv : Driver) (i : Nat) (s : Device × List Call) :
    (initAxisBody drv i s).1.rid = s.1.rid := by
  rw [initAxisBody_fst]

theorem forLoop_initAxisBody_snd (drv : Driver) (d : Device) (log : List Call) :
    (forLoop 8 (initAxisBody drv) (d, log)).2
      = log ++ (discoveredAxisCalls drv d.rid 0 ++ discoveredAxisCalls drv d.rid 1
        ++ discoveredAxisCalls drv d.rid 2 ++ discoveredAxisCalls drv d.rid 3
        ++ discoveredAxisCalls drv d.rid 4 ++ discoveredAxisCalls drv d.rid 5
        ++ discoveredAxisCalls drv d.rid 6 ++ discoveredAxisCalls drv d.rid 7) := by
  simp only [forLoop, initAxisBody_snd, initAxisBody_rid, List.append_assoc]

/-- The driver calls `init` makes when the status is not owned-by-self and the
driver grants the acquire call. -/
theorem init_acquired_calls (drv : Driver) (rid : Nat)
    (hst : drv.GetVJDStatus rid ≠ VJD_STAT_OWN) (hacq : drv.AcquireVJD rid = true) :
    ((Device.new rid).init drv).2.2
      = Call.GetVJDStatus rid :: Call.AcquireVJD rid :: discoveryCalls drv rid := by
  have h8 : MaxAxis.toNat = 8 := rfl
  unfold Device.init discoveryCalls
  simp only [Device.new, hst, hacq, if_false, Bool.not_true, h8, Bool.false_eq_true]
  rw [forLoop_initAxisBody_snd, forLoop_initAxisBody _ _ _ rfl]
  simp only [forLoop_initButtonBody, forLoop_initDiscHatBody, forLoop_initContHatBody]
  simp

/-- The result of `init` when the driver refuses the acquire call. -/
theorem init_refused (drv : Driver) (rid : Nat)
    (hst : drv.GetVJDStatus rid ≠ VJD_STAT_OWN) (hacq : drv.AcquireVJD rid = false) :
    ((Device.new rid).init drv).1
        = { Device.new rid with st := { JOYSTICK_POSITION.zero with Device := rid % 256 } }
    ∧ ((Device.new rid).init drv).2.1
        = (if drv.GetVJDStatus rid = VJD_STAT_FREE then none
           else if drv.GetVJDStatus rid = VJD_STAT_BUSY then some Error.ErrDeviceBusy
           else if drv.GetVJDStatus rid = VJD_STAT_MISS then some Error.ErrDeviceMissing
           else some Error.ErrDeviceUnknown)
    ∧ ((Device.new rid).init drv).2.2 = [Call.GetVJDStatus rid, Call.AcquireVJD rid] := by
  unfold Device.init
  simp [Device.new, hst, hacq]


theorem Acquire_of_init_none (drv : Driver) (rid : Nat)
    (h : ((Device.new rid).init drv).2.1 = none) :
    Acquire drv rid
      = (some ((Device.new rid).init drv).1.Reset, none,
          ((Device.new rid).init drv).2.2
            ++ [Call.UpdateVJD ((Device.new rid).init drv).1.Reset.rid
                  ((Device.new rid).init drv).1.Reset.st]) := by
  unfold Acquire
  simp only [h]
  rfl

theorem Acquire_of_init_some (drv : Driver) (rid : Nat) (e : Error)
    (h : ((Device.new rid).init drv).2.1 = some e) :
    Acquire drv rid = (none, some e, ((Device.new rid).init drv).2.2) := by
  unfold Acquire
  simp only [h]

theorem init_owned (drv : Driver) (rid : Nat) (h : drv.GetVJDStatus rid = VJD_STAT_OWN) :
    ((Device.new rid).init drv).2
      = (some Error.ErrDeviceAlreadyOwned, [Call.GetVJDStatus rid]) := by
  unfold Device.init
  simp [Device.new, h]

/-- C13: when the driver reports the device as owned by this application,
`Acquire` returns no device and `ErrDeviceAlreadyOwned`, and the status query is
the only driver call made: no acquire call, no capability query, no update. -/
theorem C13_Acquire_owned_fails_at_once (drv : Driver) (rid : Nat)
    (h : drv.GetVJDStatus rid = VJD_STAT_OWN) :
    (Acquire drv rid).1 = none
    ∧ (Acquire drv rid).2.1 = some Error.ErrDeviceAlreadyOwned
    ∧ (Acquire drv rid).2.2 = [Call.GetVJDStatus rid] := by
  have hi := init_owned drv rid h
  have he : ((Device.new rid).init drv).2.1 = some Error.ErrDeviceAlreadyOwned := by rw [hi]
  have hl : ((Device.new rid).init drv).2.2 = [Call.GetVJDStatus rid] := by rw [hi]
  rw [Acquire_of_init_some drv rid _ he]
  exact ⟨rfl, rfl, hl⟩

/-- C13, witness: device 1 of a driver reporting it as owned by this
application. -/
theorem C13_Acquire_owned_fails_at_once_witness :
    (Acquire (sampleDriver VJD_STAT_OWN true true 40 1 1) 1).1 = none
    ∧ (Acquire (sampleDriver VJD_STAT_OWN true true 40 1 1) 1).2.1
        = some Error.ErrDeviceAlreadyOwned
    ∧ (Acquire (sampleDriver VJD_STAT_OWN true true 40 1 1) 1).2.2 = [Call.GetVJDStatus 1] :=
  C13_Acquire_owned_fails_at_once (sampleDriver VJD_STAT_OWN true true 40 1 1) 1 rfl

/-- C14: when the status is neither owned-by-self nor free, `Acquire` calls the
driver's acquire right after the status query; if the driver grants it,
`Acquire` returns a device and a nil error; if the driver refuses it, `Acquire`
returns no device and the error of the status: `ErrDeviceBusy` for busy,
`ErrDeviceMissing` for missing, `ErrDeviceUnknown` otherwise. -/
theorem C14_Acquire_busy_missing_unknown (drv : Driver) (rid : Nat)
    (hown : drv.GetVJDStatus rid ≠ VJD_STAT_OWN) (hfree : drv.GetVJDStatus rid ≠ VJD_STAT_FREE) :
    (∃ rest, (Acquire drv rid).2.2 = Call.GetVJDStatus rid :: Call.AcquireVJD rid :: rest)
    ∧ (drv.AcquireVJD rid = true →
        (Acquire drv rid).1.isSome = true ∧ (Acquire drv rid).2.1 = none)
    ∧ (drv.AcquireVJD rid = false →
        (Acquire drv rid).1 = none
        ∧ (Acquire drv rid).2.1
            = some (if drv.GetVJDStatus rid = VJD_STAT_BUSY then Error.ErrDeviceBusy
                    else if drv.GetVJDStatus rid = VJD_STAT_MISS then Error.ErrDeviceMissing
                    else Error.ErrDeviceUnknown)) := by
  have hfalse : drv.AcquireVJD rid = false →
      ((Device.new rid).init drv).2.1
        = some (if drv.GetVJDStatus rid = VJD_STAT_BUSY then Error.ErrDeviceBusy
                else if drv.GetVJDStatus rid = VJD_STAT_MISS then Error.ErrDeviceMissing
                else Error.ErrDeviceUnknown) := by
    intro hacq
    rw [(init_refused drv rid hown hacq).2.1, if_neg hfree]
    split_ifs <;> rfl
  refine ⟨?_, ?_, ?_⟩
  · cases hacq : drv.AcquireVJD rid
    · rw [Acquire_of_init_some drv rid _ (hfalse hacq)]
      exact ⟨[], (init_refused drv rid hown hacq).2.2⟩
    · rw [Acquire_of_init_none drv rid (init_acquired drv rid hown hacq).2]
      refine ⟨discoveryCalls drv rid
        ++ [Call.UpdateVJD ((Device.new rid).init drv).1.Reset.rid
              ((Device.new rid).init drv).1.Reset.st], ?_⟩
      show ((Device.new rid).init drv).2.2 ++ _ = _
      rw [init_acquired_calls drv rid hown hacq]
      rfl
  · intro hacq
    obtain ⟨h1, h2⟩ := Acquire_acquired drv rid hown hacq
    rw [h1]
    exact ⟨rfl, h2⟩
  · intro hacq
    rw [Acquire_of_init_some drv rid _ (hfalse hacq)]
    exact ⟨rfl, rfl⟩

/-- C14, witness: a busy device whose acquire is refused, and a missing device
whose acquire is granted. -/
theorem C14_Acquire_busy_missing_unknown_witness :
    ((sampleDriver VJD_STAT_BUSY false true 40 1 1).GetVJDStatus 1 ≠ VJD_STAT_OWN
      ∧ (sampleDriver VJD_STAT_BUSY false true 40 1 1).GetVJDStatus 1 ≠ VJD_STAT_FREE
      ∧ (Acquire (sampleDriver VJD_STAT_BUSY false true 40 1 1) 1).1 = none
      ∧ (Acquire (sampleDriver VJD_STAT_BUSY false true 40 1 1) 1).2.1
          = some Error.ErrDeviceBusy)
    ∧ ((Acquire (sampleDriver VJD_STAT_MISS true true 40 1 1) 1).1.isSome = true
      ∧ (Acquire (sampleDriver VJD_STAT_MISS true true 40 1 1) 1).2.1 = none) :=
  ⟨⟨by decide, by decide,
     (C14_Acquire_busy_missing_unknown (sampleDriver VJD_STAT_BUSY false true 40 1 1) 1
        (by decide) (by decide)).2.2 rfl⟩,
   (C14_Acquire_busy_missing_unknown (sampleDriver VJD_STAT_MISS true true 40 1 1) 1
      (by decide) (by decide)).2.1 rfl⟩


/-! ## The layout of the state buffer -/

/-- C15, counterexample: the field names of the submitted buffer, in order,
are not the order of the claim, in which the three extension button words
follow `Buttons` and the hat words come last. -/
theorem C15_extension_buttons_do_not_follow_Buttons :
    (Call.submitted (Call.UpdateVJD 1 (Device.new 1).Reset.st)).map Field.name
      ≠ ["Device", "Throttle", "Rudder", "Aileron", "AxisX", "AxisY", "AxisZ",
         "AxisXRot", "AxisYRot", "AxisZRot", "Slider", "Dial", "Wheel",
         "AxisVX", "AxisVY", "AxisVZ", "AxisVBRX", "AxisVBRY", "AxisVBRZ",
         "Buttons", "ButtonsEx1", "ButtonsEx2", "ButtonsEx3",
         "Hats", "HatsEx1", "HatsEx2", "HatsEx3"] := by
  decide

/-- C15, amended: the buffer `Device.Update` submits lists its fields in this
order: the device-id byte, the 18 signed 32-bit axis fields, the 32-bit word
`Buttons`, then the four unsigned 32-bit hat words, then the three signed
32-bit extension button words; each position holds the value of the field of
that name. -/
theorem C15_submitted_field_order (drv : Driver) (d : Device) :
    (∃ c, (d.Update drv).2 = [c]
      ∧ (Call.submitted c).map Field.name
          = ["Device", "Throttle", "Rudder", "Aileron", "AxisX", "AxisY", "AxisZ",
             "AxisXRot", "AxisYRot", "AxisZRot", "Slider", "Dial", "Wheel",
             "AxisVX", "AxisVY", "AxisVZ", "AxisVBRX", "AxisVBRY", "AxisVBRZ",
             "Buttons", "Hats", "HatsEx1", "HatsEx2", "HatsEx3",
             "ButtonsEx1", "ButtonsEx2", "ButtonsEx3"]
      ∧ (Call.submitted c).map Field.bits = 8 :: List.replicate 26 32
      ∧ (Call.submitted c).map Field.signed
          = false :: (List.replicate 19 true ++ List.replicate 4 false
              ++ List.replicate 3 true)
      ∧ ((Call.submitted c).drop 19).map Field.value
          = [d.st.Buttons, (d.st.Hats : Int), (d.st.HatsEx1 : Int), (d.st.HatsEx2 : Int),
             (d.st.HatsEx3 : Int), d.st.ButtonsEx1, d.st.ButtonsEx2, d.st.ButtonsEx3]
      ∧ ((Call.submitted c).take 19).map Field.value
          = [(d.st.Device : Int), d.st.Throttle, d.st.Rudder, d.st.Aileron, d.st.AxisX,
             d.st.AxisY, d.st.AxisZ, d.st.AxisXRot, d.st.AxisYRot, d.st.AxisZRot,
             d.st.Slider, d.st.Dial, d.st.Wheel, d.st.AxisVX, d.st.AxisVY, d.st.AxisVZ,
             d.st.AxisVBRX, d.st.AxisVBRY, d.st.AxisVBRZ]) :=
  ⟨_, rfl, rfl, rfl, rfl, rfl, rfl⟩


/-! ## Handles outside the discovered range -/

theorem st_store32_noi (d : Device) (v : Int) : (d.store32 .noi v).st = d.st := rfl

theorem Button_Set_noi_st (mask : Int) (ex val : Bool) (d : Device) :
    (Button.Set ⟨.noi, mask, ex⟩ val d).st = d.st := by
  unfold Button.Set
  cases val
  · exact st_store32_noi _ _
  · exact st_store32_noi _ _

theorem Setu_noi_st (ex : Bool) (mn mx v : Int) (d : Device) :
    (Axis.Setu ⟨.noi, ex, mn, mx⟩ v d).st = d.st := by
  unfold Axis.Setu
  exact st_store32_noi _ _

theorem Seti_noi_st (ex : Bool) (mn mx v : Int) (d : Device) :
    (Axis.Seti ⟨.noi, ex, mn, mx⟩ v d).st = d.st := by
  unfold Axis.Seti
  exact Setu_noi_st _ _ _ _ _

theorem Setc_noi_st (ex : Bool) (mn mx v : Int) (d : Device) :
    (Axis.Setc ⟨.noi, ex, mn, mx⟩ v d).st = d.st := by
  unfold Axis.Setc
  exact Setu_noi_st _ _ _ _ _

theorem Setf_noi_st {F : Type} (fl : Float32Ops F) (ex : Bool) (mn mx : Int) (x : F)
    (d : Device) : (Axis.Setf fl ⟨.noi, ex, mn, mx⟩ x d).st = d.st := by
  unfold Axis.Setf
  exact Setu_noi_st _ _ _ _ _

theorem Setuf_noi_st {F : Type} (fl : Float32Ops F) (ex : Bool) (mn mx : Int) (x : F)
    (d : Device) : (Axis.Setuf fl ⟨.noi, ex, mn, mx⟩ x d).st = d.st := by
  unfold Axis.Setuf
  exact Setc_noi_st _ _ _ _ _


theorem Axis_out_of_range (drv : Driver) (rid : Nat) (n : Int)
    (hst : drv.GetVJDStatus rid ≠ VJD_STAT_OWN) (hacq : drv.AcquireVJD rid = true)
    (hn : n < 0 ∨ 8 ≤ n) :
    (((Device.new rid).init drv).1.Reset).Axis n
      = some { p := .noi, «exists» := false, min := 0, max := 0 } := by
  rw [(init_acquired drv rid hst hacq).1]
  unfold Device.Axis Device.Reset
  have h : ¬ (0 ≤ n ∧ n < 8) := by omega
  simp [h]

theorem Button_out_of_range (drv : Driver) (rid : Nat) (n : Int)
    (hst : drv.GetVJDStatus rid ≠ VJD_STAT_OWN) (hacq : drv.AcquireVJD rid = true)
    (hn : n < 0 ∨ drv.GetVJDButtonNumber rid ≤ n) :
    (((Device.new rid).init drv).1.Reset).Button n
      = some { p := .noi, «exists» := false, mask := 0 } := by
  rw [(init_acquired drv rid hst hacq).1]
  unfold Device.Button Device.Reset
  have h : ¬ (0 ≤ n ∧ n < ((drv.GetVJDButtonNumber rid).toNat : Int)) := by omega
  simp only [List.length_map, List.length_range]
  rw [if_neg h]


/-- C17: on an acquired device, `Device.Button(n)` for n below 0 or at least the
button count the driver reported, and `Device.Axis(n)` for n below 0 or at least
8, return a handle whose `Exists()` is false; `Set(true)` and `Set(false)`
through that button handle, and every setter through that axis handle, from
every buffer state, leave the state buffer as it was. -/
theorem C17_out_of_range_handles_discard {F : Type} (fl : Float32Ops F) (drv : Driver)
    (rid : Nat)
    (hst : drv.GetVJDStatus rid ≠ VJD_STAT_OWN) (hacq : drv.AcquireVJD rid = true) :
    ∃ d, (Acquire drv rid).1 = some d ∧ (Acquire drv rid).2.1 = none
      ∧ (∀ n : Int, n < 0 ∨ drv.GetVJDButtonNumber rid ≤ n →
          ∃ b, d.Button n = some b ∧ b.Exists = false
            ∧ ∀ d1 : Device, (b.Set true d1).st = d1.st ∧ (b.Set false d1).st = d1.st)
      ∧ (∀ n : Int, n < 0 ∨ 8 ≤ n →
          ∃ a, d.Axis n = some a ∧ a.Exists = false
            ∧ ∀ (d1 : Device) (v : Int) (x : F),
                (a.Setu v d1).st = d1.st ∧ (a.Seti v d1).st = d1.st
                ∧ (a.Setc v d1).st = d1.st ∧ (a.Setf fl x d1).st = d1.st
                ∧ (a.Setuf fl x d1).st = d1.st) := by
  obtain ⟨h1, h2⟩ := Acquire_acquired drv rid hst hacq
  refine ⟨((Device.new rid).init drv).1.Reset, h1, h2, ?_, ?_⟩
  · intro n hn
    refine ⟨{ p := .noi, «exists» := false, mask := 0 },
      Button_out_of_range drv rid n hst hacq hn, ?_, ?_⟩
    · unfold Button.Exists
      rfl
    · intro d1
      exact ⟨Button_Set_noi_st 0 false true d1, Button_Set_noi_st 0 false false d1⟩
  · intro n hn
    refine ⟨{ p := .noi, «exists» := false, min := 0, max := 0 },
      Axis_out_of_range drv rid n hst hacq hn, ?_, ?_⟩
    · unfold Axis.Exists
      rfl
    · intro d1 v x
      exact ⟨Setu_noi_st false 0 0 v d1, Seti_noi_st false 0 0 v d1, Setc_noi_st false 0 0 v d1,
        Setf_noi_st fl false 0 0 x d1, Setuf_noi_st fl false 0 0 x d1⟩


/-- C17, witness: a device with 40 buttons and all axes; button 40 and axis 8
are the first indices out of range. -/
theorem C17_out_of_range_handles_discard_witness :
    ∃ d, (Acquire (sampleDriver VJD_STAT_FREE true true 40 0 0) 1).1 = some d
      ∧ (Acquire (sampleDriver VJD_STAT_FREE true true 40 0 0) 1).2.1 = none
      ∧ (∀ n : Int,
          n < 0 ∨ (sampleDriver VJD_STAT_FREE true true 40 0 0).GetVJDButtonNumber 1 ≤ n →
          ∃ b, d.Button n = some b ∧ b.Exists = false
            ∧ ∀ d1 : Device, (b.Set true d1).st = d1.st ∧ (b.Set false d1).st = d1.st)
      ∧ (∀ n : Int, n < 0 ∨ 8 ≤ n →
          ∃ a, d.Axis n = some a ∧ a.Exists = false
            ∧ ∀ (d1 : Device) (v : Int) (x : F32),
                (a.Setu v d1).st = d1.st ∧ (a.Seti v d1).st = d1.st
                ∧ (a.Setc v d1).st = d1.st ∧ (a.Setf binary32 x d1).st = d1.st
                ∧ (a.Setuf binary32 x d1).st = d1.st) :=
  C17_out_of_range_handles_discard binary32 (sampleDriver VJD_STAT_FREE true true 40 0 0) 1
    (by decide) rfl


/-! ## The snapshot Acquire submits -/

theorem Reset_isNeutral (d : Device)
    (h1 : d.st.ButtonsEx1 = 0) (h2 : d.st.ButtonsEx2 = 0) (h3 : d.st.ButtonsEx3 = 0) :
    d.Reset.st.isNeutral :=
  ⟨⟨rfl, rfl, rfl, rfl, rfl, rfl, rfl, rfl, rfl, rfl, rfl, rfl, rfl, rfl, rfl, rfl, rfl, rfl⟩,
    ⟨rfl, h1, h2, h3⟩, ⟨rfl, rfl, rfl, rfl⟩⟩

theorem discoveredAxisCalls_isUpdateVJD (drv : Driver) (rid i : Nat) (c : Call)
    (hc : c ∈ discoveredAxisCalls drv rid i) : c.isUpdateVJD = false := by
  unfold discoveredAxisCalls at hc
  cases hex : drv.GetVJDAxisExist rid (axisNumber i)
  · rw [hex] at hc
    simp only [Bool.false_eq_true, if_false, List.mem_cons, List.mem_singleton,
      List.not_mem_nil, or_false] at hc
    subst hc
    rfl
  · rw [hex] at hc
    simp only [if_true, List.mem_cons, List.mem_singleton, List.not_mem_nil, or_false] at hc
    rcases hc with h | h | h <;> subst h <;> rfl

theorem discoveryCalls_isUpdateVJD (drv : Driver) (rid : Nat) (c : Call)
    (hc : c ∈ discoveryCalls drv rid) : c.isUpdateVJD = false := by
  unfold discoveryCalls at hc
  simp only [List.mem_append, List.mem_cons, List.mem_singleton, List.not_mem_nil,
    or_false] at hc
  rcases hc with (((((((h | h) | h) | h) | h) | h) | h) | h) | h
  · exact discoveredAxisCalls_isUpdateVJD drv rid 0 c h
  · exact discoveredAxisCalls_isUpdateVJD drv rid 1 c h
  · exact discoveredAxisCalls_isUpdateVJD drv rid 2 c h
  · exact discoveredAxisCalls_isUpdateVJD drv rid 3 c h
  · exact discoveredAxisCalls_isUpdateVJD drv rid 4 c h
  · exact discoveredAxisCalls_isUpdateVJD drv rid 5 c h
  · exact discoveredAxisCalls_isUpdateVJD drv rid 6 c h
  · exact discoveredAxisCalls_isUpdateVJD drv rid 7 c h
  · rcases h with h | h | h <;> subst h <;> rfl


/-- The rid and the state buffer `init` leaves whenever the status is not
owned-by-self: only the device-id byte has been written. -/
theorem init_rid_st (drv : Driver) (rid : Nat)
    (hst : drv.GetVJDStatus rid ≠ VJD_STAT_OWN) :
    ((Device.new rid).init drv).1.rid = rid
    ∧ ((Device.new rid).init drv).1.st
        = { JOYSTICK_POSITION.zero with Device := rid % 256 } := by
  cases hacq : drv.AcquireVJD rid
  · rw [(init_refused drv rid hst hacq).1]
    exact ⟨rfl, rfl⟩
  · rw [(init_acquired drv rid hst hacq).1]
    exact ⟨rfl, rfl⟩

/-- The driver calls of `init` never include a submission. -/
theorem init_calls_isUpdateVJD (drv : Driver) (rid : Nat)
    (hst : drv.GetVJDStatus rid ≠ VJD_STAT_OWN) (c : Call)
    (hc : c ∈ ((Device.new rid).init drv).2.2) : c.isUpdateVJD = false := by
  cases hacq : drv.AcquireVJD rid
  · rw [(init_refused drv rid hst hacq).2.2] at hc
    simp only [List.mem_cons, List.mem_singleton, List.not_mem_nil, or_false] at hc
    rcases hc with h | h <;> subst h <;> rfl
  · rw [init_acquired_calls drv rid hst hacq] at hc
    simp only [List.mem_cons] at hc
    rcases hc with h | h | h
    · subst h; rfl
    · subst h; rfl
    · exact discoveryCalls_isUpdateVJD drv rid c h

/-- C18: whenever `Acquire(rid)` returns a nil error, its driver calls end with
one submission, no other call is a submission, and when the driver granted the
acquire call the calls before it are the status query, the acquire call and the
capability queries; the buffer submitted is that of the device returned, and it
is neutral: device-id byte rid modulo 256 (rid itself for rid < 256), every axis
slot 0x4000, every button word 0, every hat word 0xFFFFFFFF. -/
theorem C18_Acquire_submits_neutral_state_once (drv : Driver) (rid : Nat)
    (hok : (Acquire drv rid).2.1 = none) :
    ∃ d before, (Acquire drv rid).1 = some d
      ∧ (Acquire drv rid).2.2 = before ++ [Call.UpdateVJD rid d.st]
      ∧ (∀ c ∈ before, c.isUpdateVJD = false)
      ∧ (drv.AcquireVJD rid = true →
          before = Call.GetVJDStatus rid :: Call.AcquireVJD rid :: discoveryCalls drv rid)
      ∧ d.st.Device = rid % 256
      ∧ (rid < 256 → d.st.Device = rid)
      ∧ d.st.isNeutral := by
  have hst : drv.GetVJDStatus rid ≠ VJD_STAT_OWN := by
    intro h
    have hi := init_owned drv rid h
    have he : ((Device.new rid).init drv).2.1 = some Error.ErrDeviceAlreadyOwned := by rw [hi]
    rw [Acquire_of_init_some drv rid _ he] at hok
    exact Option.noConfusion hok
  have hinit : ((Device.new rid).init drv).2.1 = none := by
    cases hi : ((Device.new rid).init drv).2.1 with
    | none => rfl
    | some e =>
      rw [Acquire_of_init_some drv rid e hi] at hok
      exact Option.noConfusion hok
  obtain ⟨hrid, hstate⟩ := init_rid_st drv rid hst
  have hdev : ((Device.new rid).init drv).1.Reset.st.Device = rid % 256 := by
    show ((Device.new rid).init drv).1.st.Device = rid % 256
    rw [hstate]
  refine ⟨((Device.new rid).init drv).1.Reset, ((Device.new rid).init drv).2.2, ?_, ?_,
    init_calls_isUpdateVJD drv rid hst, ?_, hdev, ?_, ?_⟩
  · rw [Acquire_of_init_none drv rid hinit]
  · rw [Acquire_of_init_none drv rid hinit]
    show _ ++ [Call.UpdateVJD ((Device.new rid).init drv).1.rid _] = _
    rw [hrid]
  · intro hacq
    exact init_acquired_calls drv rid hst hacq
  · intro hlt
    rw [hdev]
    exact Nat.mod_eq_of_lt hlt
  · apply Reset_isNeutral <;> rw [hstate] <;> rfl

/-- C18, witness: device 1 of a driver with status free that grants the
acquire call. -/
theorem C18_Acquire_submits_neutral_state_once_witness :
    (Acquire (sampleDriver VJD_STAT_FREE true true 40 1 1) 1).2.1 = none
    ∧ ∃ d before, (Acquire (sampleDriver VJD_STAT_FREE true true 40 1 1) 1).1 = some d
      ∧ (Acquire (sampleDriver VJD_STAT_FREE true true 40 1 1) 1).2.2
          = before ++ [Call.UpdateVJD 1 d.st]
      ∧ (∀ c ∈ before, c.isUpdateVJD = false)
      ∧ ((sampleDriver VJD_STAT_FREE true true 40 1 1).AcquireVJD 1 = true →
          before = Call.GetVJDStatus 1 :: Call.AcquireVJD 1
            :: discoveryCalls (sampleDriver VJD_STAT_FREE true true 40 1 1) 1)
      ∧ d.st.Device = 1 % 256
      ∧ (1 < 256 → d.st.Device = 1)
      ∧ d.st.isNeutral :=
  ⟨rfl, C18_Acquire_submits_neutral_state_once
    (sampleDriver VJD_STAT_FREE true true 40 1 1) 1 rfl⟩


/-- C19, at a failing input: the driver grants the acquire call and rejects
every update; `Device.Update` on the device reports `ErrUpdate`, the last
driver call of `Acquire` is that rejected submission, and `Acquire` still
returns the device with a nil error. -/
theorem C19_Acquire_drops_update_error :
    (Acquire rejectingDriver 1).2.2.getLast?.map Call.isUpdateVJD = some true
    ∧ (Acquire rejectingDriver 1).1.map (fun d => (d.Update rejectingDriver).1)
        = some (some Error.ErrUpdate)
    ∧ (Acquire rejectingDriver 1).1.isSome = true
    ∧ (Acquire rejectingDriver 1).2.1 = none := by
  decide

/-! ## Axis handles after discovery -/

/-- The handle `Device.Axis(n)` of an acquired device, for the 8 axis names. -/
theorem Axis_acquired (drv : Driver) (rid : Nat) (n : Nat)
    (hst : drv.GetVJDStatus rid ≠ VJD_STAT_OWN) (hacq : drv.AcquireVJD rid = true)
    (hn : n < 8) :
    (((Device.new rid).init drv).1.Reset).Axis n = some (discoveredAxis drv rid n) := by
  rw [(init_acquired drv rid hst hacq).1]
  interval_cases n <;> simp [Device.Axis, Device.Reset, List.range_succ]

theorem discoveredAxis_p (drv : Driver) (rid : Nat) (n : Nat) (hn : n < 8) :
    some (discoveredAxis drv rid n).p
      = [I32Ref.AxisX, I32Ref.AxisY, I32Ref.AxisZ, I32Ref.AxisXRot,
          I32Ref.AxisYRot, I32Ref.AxisZRot, I32Ref.Slider, I32Ref.Dial].get? n := by
  interval_cases n <;> rfl


/-- C20: after a successful acquisition, for every axis name n in 0..7 the
handle `Device.Axis(n)` points at its own field (X at AxisX, Y at AxisY, Z at
AxisZ, RX at AxisXRot, RY at AxisYRot, RZ at AxisZRot, Slider0 at Slider,
Slider1 at Dial), these 8 fields are pairwise distinct, and every setter through
the handle, from every buffer state, leaves every other `int32` field (the
other 17 axis fields and the four button words), the four hat words and the
device-id byte unchanged. -/
theorem C20_axis_setters_change_own_field_only {F : Type} (fl : Float32Ops F)
    (drv : Driver) (rid : Nat) (n : Nat)
    (hst : drv.GetVJDStatus rid ≠ VJD_STAT_OWN) (hacq : drv.AcquireVJD rid = true)
    (hn : n < 8) :
    [I32Ref.AxisX, I32Ref.AxisY, I32Ref.AxisZ, I32Ref.AxisXRot,
      I32Ref.AxisYRot, I32Ref.AxisZRot, I32Ref.Slider, I32Ref.Dial].Nodup
    ∧ ∃ d a, (Acquire drv rid).1 = some d ∧ (Acquire drv rid).2.1 = none
      ∧ d.Axis n = some a
      ∧ some a.p = [I32Ref.AxisX, I32Ref.AxisY, I32Ref.AxisZ, I32Ref.AxisXRot,
          I32Ref.AxisYRot, I32Ref.AxisZRot, I32Ref.Slider, I32Ref.Dial].get? n
      ∧ ∀ (d1 : Device) (v : Int) (x : F),
          (∀ r : I32Ref, r ≠ a.p →
            (a.Setu v d1).load32 r = d1.load32 r ∧ (a.Seti v d1).load32 r = d1.load32 r
            ∧ (a.Setc v d1).load32 r = d1.load32 r ∧ (a.Setf fl x d1).load32 r = d1.load32 r
            ∧ (a.Setuf fl x d1).load32 r = d1.load32 r)
          ∧ (∀ r : U32Ref,
            (a.Setu v d1).loadU32 r = d1.loadU32 r ∧ (a.Seti v d1).loadU32 r = d1.loadU32 r
            ∧ (a.Setc v d1).loadU32 r = d1.loadU32 r
            ∧ (a.Setf fl x d1).loadU32 r = d1.loadU32 r
            ∧ (a.Setuf fl x d1).loadU32 r = d1.loadU32 r)
          ∧ ((a.Setu v d1).st.Device = d1.st.Device ∧ (a.Seti v d1).st.Device = d1.st.Device
            ∧ (a.Setc v d1).st.Device = d1.st.Device
            ∧ (a.Setf fl x d1).st.Device = d1.st.Device
            ∧ (a.Setuf fl x d1).st.Device = d1.st.Device) := by
  obtain ⟨h1, h2⟩ := Acquire_acquired drv rid hst hacq
  refine ⟨by decide, ((Device.new rid).init drv).1.Reset, discoveredAxis drv rid n, h1, h2,
    Axis_acquired drv rid n hst hacq hn, discoveredAxis_p drv rid n hn, ?_⟩
  intro d1 v x
  refine ⟨fun r hr => ⟨?_, ?_, ?_, ?_, ?_⟩, fun r => ⟨?_, ?_, ?_, ?_, ?_⟩, ?_, ?_, ?_, ?_, ?_⟩
  · exact load32_store32_ne _ _ _ _ hr
  · exact load32_store32_ne _ _ _ _ hr
  · exact load32_store32_ne _ _ _ _ hr
  · exact load32_store32_ne _ _ _ _ hr
  · exact load32_store32_ne _ _ _ _ hr
  · exact loadU32_store32 _ _ _ _
  · exact loadU32_store32 _ _ _ _
  · exact loadU32_store32 _ _ _ _
  · exact loadU32_store32 _ _ _ _
  · exact loadU32_store32 _ _ _ _
  · exact stDevice_store32 _ _ _
  · exact stDevice_store32 _ _ _
  · exact stDevice_store32 _ _ _
  · exact stDevice_store32 _ _ _
  · exact stDevice_store32 _ _ _

/-- C20, witness: the axis RZ of a device with all axes present. -/
theorem C20_axis_setters_change_own_field_only_witness :
    [I32Ref.AxisX, I32Ref.AxisY, I32Ref.AxisZ, I32Ref.AxisXRot,
      I32Ref.AxisYRot, I32Ref.AxisZRot, I32Ref.Slider, I32Ref.Dial].Nodup
    ∧ ∃ d a, (Acquire (sampleDriver VJD_STAT_FREE true true 40 0 0) 1).1 = some d
      ∧ (Acquire (sampleDriver VJD_STAT_FREE true true 40 0 0) 1).2.1 = none
      ∧ d.Axis (5 : Nat) = some a
      ∧ some a.p = [I32Ref.AxisX, I32Ref.AxisY, I32Ref.AxisZ, I32Ref.AxisXRot,
          I32Ref.AxisYRot, I32Ref.AxisZRot, I32Ref.Slider, I32Ref.Dial].get? 5
      ∧ ∀ (d1 : Device) (v : Int) (x : F32),
          (∀ r : I32Ref, r ≠ a.p →
            (a.Setu v d1).load32 r = d1.load32 r ∧ (a.Seti v d1).load32 r = d1.load32 r
            ∧ (a.Setc v d1).load32 r = d1.load32 r
            ∧ (a.Setf binary32 x d1).load32 r = d1.load32 r
            ∧ (a.Setuf binary32 x d1).load32 r = d1.load32 r)
          ∧ (∀ r : U32Ref,
            (a.Setu v d1).loadU32 r = d1.loadU32 r ∧ (a.Seti v d1).loadU32 r = d1.loadU32 r
            ∧ (a.Setc v d1).loadU32 r = d1.loadU32 r
            ∧ (a.Setf binary32 x d1).loadU32 r = d1.loadU32 r
            ∧ (a.Setuf binary32 x d1).loadU32 r = d1.loadU32 r)
          ∧ ((a.Setu v d1).st.Device = d1.st.Device ∧ (a.Seti v d1).st.Device = d1.st.Device
            ∧ (a.Setc v d1).st.Device = d1.st.Device
            ∧ (a.Setf binary32 x d1).st.Device = d1.st.Device
            ∧ (a.Setuf binary32 x d1).st.Device = d1.st.Device) :=
  C20_axis_setters_change_own_field_only binary32
    (sampleDriver VJD_STAT_FREE true true 40 0 0) 1 5 (by decide) rfl (by decide)


/-! ## Rounding to float32 -/

theorem lt_two_pow_bitLenAux (fuel : Nat) : ∀ n, n ≤ fuel → n < 2 ^ bitLenAux fuel n := by
  induction fuel with
  | zero =>
    intro n hn
    have : n = 0 := by omega
    subst this
    simp [bitLenAux]
  | succ fuel ih =>
    intro n hn
    unfold bitLenAux
    by_cases h0 : n = 0
    · simp [h0]
    · rw [if_neg h0]
      have h := ih (n / 2) (by omega)
      rw [pow_succ]
      omega

theorem two_pow_bitLenAux_le (fuel : Nat) :
    ∀ n, n ≤ fuel → n ≠ 0 → 2 ^ (bitLenAux fuel n - 1) ≤ n := by
  induction fuel with
  | zero =>
    intro n hn h0
    omega
  | succ fuel ih =>
    intro n hn h0
    unfold bitLenAux
    rw [if_neg h0, Nat.add_sub_cancel]
    by_cases h1 : n / 2 = 0
    · have hz : bitLenAux fuel (n / 2) = 0 := by
        rw [h1]
        cases fuel <;> simp [bitLenAux]
      rw [hz]
      omega
    · have h := ih (n / 2) (by omega) h1
      have hpos : 1 ≤ bitLenAux fuel (n / 2) := by
        cases fuel with
        | zero => omega
        | succ f =>
          unfold bitLenAux
          rw [if_neg h1]
          omega
      have hp : 2 ^ bitLenAux fuel (n / 2) = 2 * 2 ^ (bitLenAux fuel (n / 2) - 1) := by
        rw [← pow_succ']
        congr 1
        omega
      rw [hp]
      omega

theorem bitLen_le (n e : Nat) (h : n < 2 ^ e) : bitLen n ≤ e := by
  by_cases h0 : n = 0
  · subst h0
    simp [bitLen, bitLenAux]
  · have h1 := two_pow_bitLenAux_le n n (le_refl n) h0
    have h2 : 2 ^ (bitLenAux n n - 1) < 2 ^ e := lt_of_le_of_lt h1 h
    have h3 : bitLenAux n n - 1 < e := (Nat.pow_lt_pow_iff_right (by norm_num)).1 h2
    unfold bitLen
    omega

theorem two_pow_bitLen_le (n : Nat) (h0 : n ≠ 0) : 2 ^ (bitLen n - 1) ≤ n :=
  two_pow_bitLenAux_le n n (le_refl n) h0


/-- The rounding of `roundNat` with the step exponent named. -/
theorem roundNat_eq (m d s : Nat) (hs : s = max (bitLen m - 24) d) :
    roundNat m d
      = (if 2 ^ s < 2 * (m % 2 ^ s) ∨ (2 * (m % 2 ^ s) = 2 ^ s ∧ m / 2 ^ s % 2 = 1)
          then m / 2 ^ s + 1 else m / 2 ^ s) * 2 ^ (s - d) := by
  subst hs
  rfl

/-- Rounding does not pass a bound that is itself a multiple of the rounding
step. -/
theorem roundNat_le (m d B : Nat) (hm : m ≤ B * 2 ^ d)
    (hdiv : 2 ^ (max (bitLen m - 24) d - d) ∣ B) : roundNat m d ≤ B := by
  obtain ⟨s, hs⟩ : ∃ s, s = max (bitLen m - 24) d := ⟨_, rfl⟩
  rw [← hs] at hdiv
  rw [roundNat_eq m d s hs]
  have hsd : d ≤ s := by rw [hs]; exact le_max_right _ _
  obtain ⟨Kb, hKb⟩ := hdiv
  have hp : 0 < 2 ^ s := pow_pos (by norm_num) s
  have hpow : 2 ^ s = 2 ^ (s - d) * 2 ^ d := by
    rw [← pow_add]
    congr 1
    omega
  have hm1 : m ≤ 2 ^ s * Kb := by
    calc m ≤ B * 2 ^ d := hm
      _ = 2 ^ (s - d) * Kb * 2 ^ d := by rw [hKb]
      _ = 2 ^ s * Kb := by rw [hpow]; ring
  have hq : m / 2 ^ s ≤ Kb := Nat.div_le_of_le_mul hm1
  have hq1 : (if 2 ^ s < 2 * (m % 2 ^ s) ∨ (2 * (m % 2 ^ s) = 2 ^ s ∧ m / 2 ^ s % 2 = 1)
      then m / 2 ^ s + 1 else m / 2 ^ s) ≤ Kb := by
    split_ifs with hc
    · by_contra hn
      have hqeq : m / 2 ^ s = Kb := by omega
      have hdm := Nat.div_add_mod m (2 ^ s)
      rw [hqeq] at hdm
      have hr : m % 2 ^ s = 0 := by omega
      rw [hr] at hc
      rcases hc with h | ⟨h, _⟩ <;> omega
    · exact hq
  calc _ ≤ Kb * 2 ^ (s - d) := Nat.mul_le_mul_right _ hq1
    _ = B := by rw [hKb]; ring

/-- A nonzero magnitude does not round to zero. -/
theorem roundNat_pos (m : Nat) (hm : 0 < m) : 0 < roundNat m 0 := by
  have h1 := two_pow_bitLen_le m (by omega)
  have hs : bitLen m - 24 = max (bitLen m - 24) 0 := by simp
  have hle : 2 ^ (bitLen m - 24) ≤ m :=
    le_trans (Nat.pow_le_pow_right (by norm_num) (by omega)) h1
  have hq : 0 < m / 2 ^ (bitLen m - 24) := Nat.div_pos hle (pow_pos (by norm_num) _)
  rw [roundNat_eq m 0 _ hs]
  apply Nat.mul_pos
  · split_ifs <;> omega
  · exact pow_pos (by norm_num) _


theorem f32One_eq : f32One = 2 ^ 149 := by norm_num [f32One]

theorem f32Limit_eq : f32Limit = 2 ^ 277 := by norm_num [f32Limit]

/-- The rounding step is at most `2^e` for a magnitude below `2^(e + d + 24)`. -/
theorem step_dvd_two_pow (m d e : Nat) (h : m < 2 ^ (e + d + 24)) :
    2 ^ (max (bitLen m - 24) d - d) ∣ 2 ^ e := by
  have hb := bitLen_le m _ h
  apply Nat.pow_dvd_pow
  rcases le_total (bitLen m - 24) d with h1 | h1
  · rw [max_eq_right h1]; omega
  · rw [max_eq_left h1]; omega

/-- A nonnegative exact value at most `B` rounds to a finite nonnegative value
at most `B`, when `B` is a multiple of the rounding step and does not overflow. -/
theorem roundAt_nonneg_le (M : Int) (d B : Nat) (h0 : 0 ≤ M) (hm : M.natAbs ≤ B * 2 ^ d)
    (hdiv : 2 ^ (max (bitLen M.natAbs - 24) d - d) ∣ B) (hB : B < f32Limit) :
    ∃ p : Nat, F32.roundAt M d = F32.fin (p : Int) ∧ p ≤ B := by
  have hle := roundNat_le M.natAbs d B hm hdiv
  refine ⟨roundNat M.natAbs d, ?_, hle⟩
  unfold F32.roundAt
  simp only []
  rw [if_neg (by omega), if_neg (by omega)]

/-- A negative exact value rounds to a value below zero. -/
theorem roundAt_neg_lt (M : Int) (h : M < 0) :
    F32.lt (F32.roundAt M 0) (F32.fin 0) = true := by
  have hp := roundNat_pos M.natAbs (by omega)
  unfold F32.roundAt
  simp only []
  split_ifs with h1
  · rfl
  · unfold F32.lt
    simp only [decide_eq_true_eq]
    omega

set_option maxRecDepth 100000 in
set_option exponentiation.threshold 1024 in
theorem binary32_ofNat_consts :
    binary32.ofNat 0 = F32.fin 0 ∧ binary32.ofNat 1 = F32.fin (f32One : Int)
    ∧ binary32.ofNat 0x4000 = F32.fin (0x4000 * (f32One : Int))
    ∧ binary32.ofNat 0x3fff = F32.fin (0x3fff * (f32One : Int)) := by
  decide


/-! ## The values the axis setters store -/

theorem Seti_load32 (a : Axis) (v : Int) (d : Device) :
    (a.Seti v d).load32 a.p = (v - 0x4000) % 32768 := by
  rw [Seti_eq_Setu, Setu_load32]

theorem Setc_load32 (a : Axis) (v : Int) (d : Device) :
    (a.Setc v d).load32 a.p = if v < 0 then 0 else if 0x7fff < v then 0x7fff else v := by
  unfold Axis.Setc
  simp only []
  rw [Setu_load32]
  split_ifs <;> omega

theorem Setf_load32 {F : Type} (fl : Float32Ops F) (a : Axis) (x : F) (d : Device) :
    (a.Setf fl x d).load32 a.p
      = (if fl.lt x (fl.ofNat 0) then
          fl.toInt (fl.mul
            (if fl.lt (fl.add x (fl.ofNat 1)) (fl.ofNat 0) then fl.ofNat 0
              else fl.add x (fl.ofNat 1))
            (fl.ofNat 0x4000))
        else
          0x4000 + fl.toInt (fl.mul (if fl.lt (fl.ofNat 1) x then fl.ofNat 1 else x)
            (fl.ofNat 0x3fff))) % 32768 := by
  unfold Axis.Setf
  simp only []
  rw [Setu_load32]
  by_cases h : fl.lt x (fl.ofNat 0) = true
  · rw [if_pos h, if_pos h]
  · rw [if_neg h, if_neg h, toInt64_emod]

theorem Setuf_load32 {F : Type} (fl : Float32Ops F) (a : Axis) (x : F) (d : Device) :
    (a.Setuf fl x d).load32 a.p
      = if fl.toInt (fl.mul x (fl.ofNat 0x7fff)) < 0 then 0
        else if 0x7fff < fl.toInt (fl.mul x (fl.ofNat 0x7fff)) then 0x7fff
        else fl.toInt (fl.mul x (fl.ofNat 0x7fff)) := by
  unfold Axis.Setuf
  rw [Setc_load32]

/-! ## Setf in float32 arithmetic -/

set_option maxRecDepth 100000 in
set_option exponentiation.threshold 1024 in
/-- C16, counterexample: for v = float32(-1e-10), which is -14411519 * 2^-57 and
lies in [-1, 0), the sum v + 1 rounds to 1.0 and `Setf(v)` stores 0x4000, while
floor((v + 1) * 0x4000) is 16383 and the claimed range [0, 0x4000) excludes
0x4000. -/
theorem C16_Setf_tiny_negative_stores_center :
    F32.roundAt (-71362385588088017015735807350145024) 0 = F32.fin (-71362385588088017015735807350145024)
    ∧ -(f32One : Int) ≤ -71362385588088017015735807350145024
    ∧ (-71362385588088017015735807350145024 : Int) < 0
    ∧ binary32.add (F32.fin (-71362385588088017015735807350145024)) (binary32.ofNat 1) = binary32.ofNat 1
    ∧ (Axis.Setf binary32 ⟨.AxisX, true, 0, 0x7fff⟩ (F32.fin (-71362385588088017015735807350145024)) (Device.new 1)).load32
        .AxisX = 0x4000
    ∧ ((-71362385588088017015735807350145024 + (f32One : Int)) * 0x4000) / (f32One : Int) = 16383 := by
  decide


theorem b32_lt_fin (a b : Int) : binary32.lt (F32.fin a) (F32.fin b) = decide (a < b) := rfl

theorem b32_add_fin (a b : Int) :
    binary32.add (F32.fin a) (F32.fin b) = F32.roundAt (a + b) 0 := rfl

theorem b32_mul_fin (a b : Int) :
    binary32.mul (F32.fin a) (F32.fin b) = F32.roundAt (a * b) 149 := by
  simp only [binary32, F32.mul]

/-- The conversion to `int` of a finite nonnegative value of at most 0x7fff. -/
theorem b32_toInt_fin (p : Nat) (h : p ≤ 0x7fff * f32One) :
    binary32.toInt (F32.fin (p : Int)) = (p : Int) / (f32One : Int) := by
  have hp0 : (0 : Int) ≤ (p : Int) := Int.ofNat_nonneg p
  have hU0 : (0 : Int) ≤ (f32One : Int) := Int.ofNat_nonneg _
  have hUpos : (0 : Int) < (f32One : Int) := by
    have : 0 < f32One := by unfold f32One; norm_num
    exact_mod_cast this
  have h1 : Int.tdiv (p : Int) (f32One : Int) = (p : Int) / (f32One : Int) :=
    Int.tdiv_eq_ediv hp0 hU0
  have h2 : (0 : Int) ≤ (p : Int) / (f32One : Int) := Int.ediv_nonneg hp0 hU0
  have h3 : (p : Int) / (f32One : Int) ≤ 0x7fff := by
    apply Int.ediv_le_of_le_mul hUpos
    exact_mod_cast h
  have h4 : binary32.toInt (F32.fin (p : Int))
      = if -9223372036854775808 ≤ Int.tdiv (p : Int) (f32One : Int)
            ∧ Int.tdiv (p : Int) (f32One : Int) < 9223372036854775808
          then Int.tdiv (p : Int) (f32One : Int) else -9223372036854775808 := by
    simp only [binary32, F32.toInt]
  rw [h4, h1, if_pos (by constructor <;> linarith)]

set_option exponentiation.threshold 1024 in
/-- The product of a value in [0, 1] by an integer constant c of at most 2^14
is finite and lies in [0, c]. -/
theorem b32_mul_const (r c : Nat) (hr : r ≤ f32One) (hc : c ≤ 2 ^ 14) :
    ∃ p : Nat, binary32.mul (F32.fin (r : Int)) (F32.fin ((c : Int) * (f32One : Int)))
        = F32.fin (p : Int) ∧ p ≤ c * f32One := by
  rw [b32_mul_fin]
  have habs : ((r : Int) * ((c : Int) * (f32One : Int))).natAbs = r * (c * f32One) := by
    have : (r : Int) * ((c : Int) * (f32One : Int)) = ((r * (c * f32One) : Nat) : Int) := by
      push_cast; ring
    rw [this, Int.natAbs_ofNat]
  have hU : f32One = 2 ^ 149 := f32One_eq
  have hcU : c * f32One ≤ 2 ^ 14 * 2 ^ 149 := by
    rw [hU]
    exact Nat.mul_le_mul_right _ hc
  have hm : r * (c * f32One) ≤ c * f32One * 2 ^ 149 := by
    rw [← hU]
    calc r * (c * f32One) = c * f32One * r := by ring
      _ ≤ c * f32One * f32One := Nat.mul_le_mul_left _ hr
  have hlt : r * (c * f32One) < 2 ^ (149 + 149 + 24) := by
    have h1 : c * f32One * 2 ^ 149 ≤ 2 ^ 14 * 2 ^ 149 * 2 ^ 149 :=
      Nat.mul_le_mul_right _ hcU
    have h2 : (2 : Nat) ^ 14 * 2 ^ 149 * 2 ^ 149 < 2 ^ (149 + 149 + 24) := by
      rw [← pow_add, ← pow_add]
      exact Nat.pow_lt_pow_right (by norm_num) (by norm_num)
    omega
  have hdiv : 2 ^ (max (bitLen (r * (c * f32One)) - 24) 149 - 149) ∣ c * f32One := by
    have h1 := step_dvd_two_pow (r * (c * f32One)) 149 149 hlt
    rw [hU]
    exact Dvd.dvd.mul_left h1 c
  have hB : c * f32One < f32Limit := by
    rw [f32Limit_eq]
    calc c * f32One ≤ 2 ^ 14 * 2 ^ 149 := hcU
      _ = 2 ^ 163 := by rw [← pow_add]
      _ < 2 ^ 277 := Nat.pow_lt_pow_right (by norm_num) (by norm_num)
  have h0 : (0 : Int) ≤ (r : Int) * ((c : Int) * (f32One : Int)) := by positivity
  obtain ⟨p, hp, hple⟩ := roundAt_nonneg_le _ 149 (c * f32One) h0 (by rw [habs]; exact hm)
    (by rw [habs]; exact hdiv) hB
  exact ⟨p, hp, hple⟩

theorem f32One_pos : (0 : Int) < (f32One : Int) := by
  have : 0 < f32One := by unfold f32One; norm_num
  exact_mod_cast this

set_option exponentiation.threshold 1024 in
/-- The sum v + 1 for v in [-1, 0) is finite and lies in [0, 1]. -/
theorem b32_add_one (k : Int) (h1 : -(f32One : Int) ≤ k) (h2 : k < 0) :
    ∃ r : Nat, binary32.add (F32.fin k) (binary32.ofNat 1) = F32.fin (r : Int)
      ∧ r ≤ f32One := by
  rw [binary32_ofNat_consts.2.1, b32_add_fin]
  have h0 : (0 : Int) ≤ k + (f32One : Int) := by linarith
  have habs : ((k + (f32One : Int)).natAbs : Int) = k + (f32One : Int) :=
    Int.natAbs_of_nonneg h0
  have hle : (k + (f32One : Int)).natAbs ≤ f32One := by
    have : ((k + (f32One : Int)).natAbs : Int) ≤ (f32One : Int) := by rw [habs]; linarith
    exact_mod_cast this
  have hlt : (k + (f32One : Int)).natAbs < 2 ^ (149 + 0 + 24) := by
    have h3 : f32One < 2 ^ (149 + 0 + 24) := by
      rw [f32One_eq]
      exact Nat.pow_lt_pow_right (by norm_num) (by norm_num)
    omega
  have hd := step_dvd_two_pow (k + (f32One : Int)).natAbs 0 149 hlt
  rw [← f32One_eq] at hd
  have hB : f32One < f32Limit := by
    rw [f32One_eq, f32Limit_eq]
    exact Nat.pow_lt_pow_right (by norm_num) (by norm_num)
  exact roundAt_nonneg_le _ 0 f32One h0 (by simpa using hle) hd hB

/-- The value `Setf` stores for a finite v in [-1, 0): the floor of the
`float32` product of the `float32` sum v + 1 by 0x4000. -/
theorem Setf_b32_neg (a : Axis) (d : Device) (k : Int)
    (h1 : -(f32One : Int) ≤ k) (h2 : k < 0) :
    ∃ r p : Nat, binary32.add (F32.fin k) (binary32.ofNat 1) = F32.fin (r : Int)
      ∧ binary32.mul (F32.fin (r : Int)) (binary32.ofNat 0x4000) = F32.fin (p : Int)
      ∧ (a.Setf binary32 (F32.fin k) d).load32 a.p = (p : Int) / (f32One : Int)
      ∧ 0 ≤ (p : Int) / (f32One : Int) ∧ (p : Int) / (f32One : Int) ≤ 0x4000 := by
  obtain ⟨r, hr, hrle⟩ := b32_add_one k h1 h2
  obtain ⟨p, hp, hple⟩ := b32_mul_const r 0x4000 hrle (by norm_num)
  have hp1 : binary32.mul (F32.fin (r : Int)) (binary32.ofNat 0x4000) = F32.fin (p : Int) := by
    rw [binary32_ofNat_consts.2.2.1]
    simpa using hp
  have hk : binary32.lt (F32.fin k) (binary32.ofNat 0) = true := by
    rw [binary32_ofNat_consts.1, b32_lt_fin]
    exact decide_eq_true h2
  have hr0 : ¬ (binary32.lt (F32.fin (r : Int)) (binary32.ofNat 0) = true) := by
    rw [binary32_ofNat_consts.1, b32_lt_fin]
    simp
  have hti := b32_toInt_fin p (by omega)
  have hlo : (0 : Int) ≤ (p : Int) / (f32One : Int) :=
    Int.ediv_nonneg (Int.ofNat_nonneg p) (le_of_lt f32One_pos)
  have hhi : (p : Int) / (f32One : Int) ≤ 0x4000 := by
    apply Int.ediv_le_of_le_mul f32One_pos
    exact_mod_cast hple
  refine ⟨r, p, hr, hp1, ?_, hlo, hhi⟩
  rw [Setf_load32, if_pos hk, hr, if_neg hr0, hp1, hti]
  exact Int.emod_eq_of_lt hlo (by linarith)


/-- The value `Setf` stores for a finite v in [0, 1]: 0x4000 plus the floor of
the `float32` product of v by 0x3fff. -/
theorem Setf_b32_pos (a : Axis) (d : Device) (k : Int)
    (h1 : 0 ≤ k) (h2 : k ≤ (f32One : Int)) :
    ∃ p : Nat, binary32.mul (F32.fin k) (binary32.ofNat 0x3fff) = F32.fin (p : Int)
      ∧ (a.Setf binary32 (F32.fin k) d).load32 a.p = 0x4000 + (p : Int) / (f32One : Int)
      ∧ 0 ≤ (p : Int) / (f32One : Int) ∧ (p : Int) / (f32One : Int) ≤ 0x3fff := by
  obtain ⟨r, hrk⟩ : ∃ r : Nat, (r : Int) = k := ⟨k.toNat, Int.toNat_of_nonneg h1⟩
  subst hrk
  have hrle : r ≤ f32One := by exact_mod_cast h2
  obtain ⟨p, hp, hple⟩ := b32_mul_const r 0x3fff hrle (by norm_num)
  have hp1 : binary32.mul (F32.fin (r : Int)) (binary32.ofNat 0x3fff) = F32.fin (p : Int) := by
    rw [binary32_ofNat_consts.2.2.2]
    simpa using hp
  have hk : ¬ (binary32.lt (F32.fin (r : Int)) (binary32.ofNat 0) = true) := by
    rw [binary32_ofNat_consts.1, b32_lt_fin]
    simp
  have hk1 : ¬ (binary32.lt (binary32.ofNat 1) (F32.fin (r : Int)) = true) := by
    rw [binary32_ofNat_consts.2.1, b32_lt_fin]
    simpa using h2
  have hti := b32_toInt_fin p (by omega)
  have hlo : (0 : Int) ≤ (p : Int) / (f32One : Int) :=
    Int.ediv_nonneg (Int.ofNat_nonneg p) (le_of_lt f32One_pos)
  have hhi : (p : Int) / (f32One : Int) ≤ 0x3fff := by
    apply Int.ediv_le_of_le_mul f32One_pos
    exact_mod_cast hple
  refine ⟨p, hp1, ?_, hlo, hhi⟩
  rw [Setf_load32, if_neg hk, if_neg hk1, hp1, hti]
  exact Int.emod_eq_of_lt (by linarith) (by linarith)

set_option maxRecDepth 100000 in
set_option exponentiation.threshold 1024 in
theorem b32_closed_values :
    binary32.toInt (binary32.mul (binary32.ofNat 0) (binary32.ofNat 0x4000)) = 0
    ∧ binary32.toInt (binary32.mul (binary32.ofNat 1) (binary32.ofNat 0x3fff)) = 0x3fff := by
  decide

/-- The value `Setf` stores for a finite v below -1. -/
theorem Setf_b32_below (a : Axis) (d : Device) (k : Int) (h : k < -(f32One : Int)) :
    (a.Setf binary32 (F32.fin k) d).load32 a.p = 0 := by
  have hk : binary32.lt (F32.fin k) (binary32.ofNat 0) = true := by
    rw [binary32_ofNat_consts.1, b32_lt_fin]
    exact decide_eq_true (by linarith [f32One_pos])
  have hadd : binary32.lt (binary32.add (F32.fin k) (binary32.ofNat 1)) (binary32.ofNat 0)
      = true := by
    rw [binary32_ofNat_consts.2.1, b32_add_fin, binary32_ofNat_consts.1]
    exact roundAt_neg_lt _ (by linarith)
  rw [Setf_load32, if_pos hk, if_pos hadd, b32_closed_values.1]
  rfl

/-- The value `Setf` stores for a finite v above 1. -/
theorem Setf_b32_above (a : Axis) (d : Device) (k : Int) (h : (f32One : Int) < k) :
    (a.Setf binary32 (F32.fin k) d).load32 a.p = 0x7fff := by
  have hk : ¬ (binary32.lt (F32.fin k) (binary32.ofNat 0) = true) := by
    rw [binary32_ofNat_consts.1, b32_lt_fin]
    simp
    linarith [f32One_pos]
  have hk1 : binary32.lt (binary32.ofNat 1) (F32.fin k) = true := by
    rw [binary32_ofNat_consts.2.1, b32_lt_fin]
    exact decide_eq_true h
  rw [Setf_load32, if_neg hk, if_pos hk1, b32_closed_values.2]
  rfl

set_option maxRecDepth 100000 in
set_option exponentiation.threshold 1024 in
/-- The value `Setf` stores at the infinities and at -1.0, 0.0 and 1.0. -/
theorem Setf_b32_special (a : Axis) (d : Device) :
    (a.Setf binary32 F32.negInf d).load32 a.p = 0
    ∧ (a.Setf binary32 F32.posInf d).load32 a.p = 0x7fff
    ∧ (a.Setf binary32 (F32.fin (-(f32One : Int))) d).load32 a.p = 0
    ∧ (a.Setf binary32 (F32.fin 0) d).load32 a.p = 0x4000
    ∧ (a.Setf binary32 (F32.fin (f32One : Int)) d).load32 a.p = 0x7fff := by
  simp only [Setf_load32]
  decide


/-- C16, amended: `Setf` agrees with the piecewise formula evaluated in `float32`
arithmetic, every sum and product rounded to the nearest `float32`: for v < -1
(and for minus infinity) it stores 0; for -1 <= v < 0 it stores the floor of the
rounded product of the rounded sum v + 1 by 0x4000, which lies in [0, 0x4000];
for 0 <= v <= 1 it stores 0x4000 plus the floor of the rounded product of v by
0x3FFF, which lies in [0x4000, 0x7FFF]; for v > 1 (and for plus infinity) it
stores 0x7FFF; `Setf(-1.0)` stores 0, `Setf(0.0)` stores 0x4000 and `Setf(1.0)`
stores 0x7FFF. A finite v is `k * 2^-149`, so 1.0 is `f32One`, and the floor of
the value p units is `p / f32One`. -/
theorem C16_Setf_float32_piecewise (a : Axis) (d : Device) (kl kn kp kh : Int)
    (hl : kl < -(f32One : Int))
    (hn1 : -(f32One : Int) ≤ kn) (hn2 : kn < 0)
    (hp1 : 0 ≤ kp) (hp2 : kp ≤ (f32One : Int))
    (hh : (f32One : Int) < kh) :
    (a.Setf binary32 (F32.fin kl) d).load32 a.p = 0
    ∧ (a.Setf binary32 F32.negInf d).load32 a.p = 0
    ∧ (∃ r p : Nat, binary32.add (F32.fin kn) (binary32.ofNat 1) = F32.fin (r : Int)
        ∧ binary32.mul (F32.fin (r : Int)) (binary32.ofNat 0x4000) = F32.fin (p : Int)
        ∧ (a.Setf binary32 (F32.fin kn) d).load32 a.p = (p : Int) / (f32One : Int)
        ∧ 0 ≤ (p : Int) / (f32One : Int) ∧ (p : Int) / (f32One : Int) ≤ 0x4000)
    ∧ (∃ p : Nat, binary32.mul (F32.fin kp) (binary32.ofNat 0x3fff) = F32.fin (p : Int)
        ∧ (a.Setf binary32 (F32.fin kp) d).load32 a.p
            = 0x4000 + (p : Int) / (f32One : Int)
        ∧ 0 ≤ (p : Int) / (f32One : Int) ∧ (p : Int) / (f32One : Int) ≤ 0x3fff)
    ∧ (a.Setf binary32 (F32.fin kh) d).load32 a.p = 0x7fff
    ∧ (a.Setf binary32 F32.posInf d).load32 a.p = 0x7fff
    ∧ (a.Setf binary32 (F32.fin (-(f32One : Int))) d).load32 a.p = 0
    ∧ (a.Setf binary32 (F32.fin 0) d).load32 a.p = 0x4000
    ∧ (a.Setf binary32 (F32.fin (f32One : Int)) d).load32 a.p = 0x7fff := by
  obtain ⟨s1, s2, s3, s4, s5⟩ := Setf_b32_special a d
  exact ⟨Setf_b32_below a d kl hl, s1, Setf_b32_neg a d kn hn1 hn2,
    Setf_b32_pos a d kp hp1 hp2, Setf_b32_above a d kh hh, s2, s3, s4, s5⟩

set_option maxRecDepth 100000 in
set_option exponentiation.threshold 1024 in
/-- C16, witness: the axis X of the zero device at v = -2.0, -0.5, 0.5 and 2.0. -/
theorem C16_Setf_float32_piecewise_witness :
    ((-1427247692705959881058285969449495136382746624 : Int) < -(f32One : Int)
      ∧ -(f32One : Int) ≤ (-356811923176489970264571492362373784095686656 : Int) ∧ (-356811923176489970264571492362373784095686656 : Int) < 0
      ∧ (0 : Int) ≤ 356811923176489970264571492362373784095686656 ∧ (356811923176489970264571492362373784095686656 : Int) ≤ (f32One : Int)
      ∧ (f32One : Int) < 1427247692705959881058285969449495136382746624)
    ∧ (
    ((Axis.mk .AxisX true 0 0x7fff).Setf binary32 (F32.fin (-1427247692705959881058285969449495136382746624)) (Device.new 1)).load32 (Axis.mk .AxisX true 0 0x7fff).p = 0
    ∧ ((Axis.mk .AxisX true 0 0x7fff).Setf binary32 F32.negInf (Device.new 1)).load32 (Axis.mk .AxisX true 0 0x7fff).p = 0
    ∧ (∃ r p : Nat, binary32.add (F32.fin (-356811923176489970264571492362373784095686656)) (binary32.ofNat 1) = F32.fin (r : Int)
        ∧ binary32.mul (F32.fin (r : Int)) (binary32.ofNat 0x4000) = F32.fin (p : Int)
        ∧ ((Axis.mk .AxisX true 0 0x7fff).Setf binary32 (F32.fin (-356811923176489970264571492362373784095686656)) (Device.new 1)).load32 (Axis.mk .AxisX true 0 0x7fff).p = (p : Int) / (f32One : Int)
        ∧ 0 ≤ (p : Int) / (f32One : Int) ∧ (p : Int) / (f32One : Int) ≤ 0x4000)
    ∧ (∃ p : Nat, binary32.mul (F32.fin 356811923176489970264571492362373784095686656) (binary32.ofNat 0x3fff) = F32.fin (p : Int)
        ∧ ((Axis.mk .AxisX true 0 0x7fff).Setf binary32 (F32.fin 356811923176489970264571492362373784095686656) (Device.new 1)).load32 (Axis.mk .AxisX true 0 0x7fff).p
            = 0x4000 + (p : Int) / (f32One : Int)
        ∧ 0 ≤ (p : Int) / (f32One : Int) ∧ (p : Int) / (f32One : Int) ≤ 0x3fff)
    ∧ ((Axis.mk .AxisX true 0 0x7fff).Setf binary32 (F32.fin 1427247692705959881058285969449495136382746624) (Device.new 1)).load32 (Axis.mk .AxisX true 0 0x7fff).p = 0x7fff
    ∧ ((Axis.mk .AxisX true 0 0x7fff).Setf binary32 F32.posInf (Device.new 1)).load32 (Axis.mk .AxisX true 0 0x7fff).p = 0x7fff
    ∧ ((Axis.mk .AxisX true 0 0x7fff).Setf binary32 (F32.fin (-(f32One : Int))) (Device.new 1)).load32 (Axis.mk .AxisX true 0 0x7fff).p = 0
    ∧ ((Axis.mk .AxisX true 0 0x7fff).Setf binary32 (F32.fin 0) (Device.new 1)).load32 (Axis.mk .AxisX true 0 0x7fff).p = 0x4000
    ∧ ((Axis.mk .AxisX true 0 0x7fff).Setf binary32 (F32.fin (f32One : Int)) (Device.new 1)).load32 (Axis.mk .AxisX true 0 0x7fff).p = 0x7fff) :=
  ⟨by decide,
   C16_Setf_float32_piecewise (Axis.mk .AxisX true 0 0x7fff) (Device.new 1)
     (-1427247692705959881058285969449495136382746624) (-356811923176489970264571492362373784095686656) 356811923176489970264571492362373784095686656 1427247692705959881058285969449495136382746624
     (by decide) (by decide) (by decide) (by decide) (by decide) (by decide)⟩


/-! ## Axes the driver reports as absent -/

/-- C5, amended: after a successful acquisition, for each of the 8 logical axis
slots, existing or not, `Device.Axis(n)` is a handle whose `Exists()` is the
driver's answer and which is bound to the buffer field of its name (AxisX,
AxisY, AxisZ, AxisXRot, AxisYRot, AxisZRot, Slider, Dial), not to the discard
slot; every setter through it, from every buffer state, writes that field and
leaves every other field of the state buffer unchanged. What is written: `Setu`
writes v modulo 0x8000, `Seti` writes v - 0x4000 modulo 0x8000, `Setc` writes v
clamped to [0, 0x7fff], `Setf` writes the integer of its two-branch formula
modulo 0x8000, and `Setuf` writes `int(val * 0x7fff)` clamped to [0, 0x7fff]. -/
theorem C5_axis_setters_write_own_field {F : Type} (fl : Float32Ops F) (drv : Driver)
    (rid : Nat) (n : Nat)
    (hst : drv.GetVJDStatus rid ≠ VJD_STAT_OWN) (hacq : drv.AcquireVJD rid = true)
    (hn : n < 8) :
    ∃ d a, (Acquire drv rid).1 = some d ∧ (Acquire drv rid).2.1 = none
      ∧ d.Axis n = some a
      ∧ a.Exists = drv.GetVJDAxisExist rid (axisNumber n)
      ∧ some a.p = [I32Ref.AxisX, I32Ref.AxisY, I32Ref.AxisZ, I32Ref.AxisXRot,
          I32Ref.AxisYRot, I32Ref.AxisZRot, I32Ref.Slider, I32Ref.Dial].get? n
      ∧ a.p ≠ I32Ref.noi
      ∧ ∀ (d1 : Device) (v : Int) (x : F),
          sameExcept32 d1 (a.Setu v d1) a.p ∧ sameExcept32 d1 (a.Seti v d1) a.p
          ∧ sameExcept32 d1 (a.Setc v d1) a.p ∧ sameExcept32 d1 (a.Setf fl x d1) a.p
          ∧ sameExcept32 d1 (a.Setuf fl x d1) a.p
          ∧ (a.Setu v d1).load32 a.p = toInt32 (andInt v 0x7fff)
          ∧ (a.Setu v d1).load32 a.p = v % 0x8000
          ∧ (a.Seti v d1).load32 a.p = (v - 0x4000) % 0x8000
          ∧ (a.Setc v d1).load32 a.p
              = (if v < 0 then 0 else if 0x7fff < v then 0x7fff else v)
          ∧ (a.Setf fl x d1).load32 a.p
              = (if fl.lt x (fl.ofNat 0) then
                  fl.toInt (fl.mul
                    (if fl.lt (fl.add x (fl.ofNat 1)) (fl.ofNat 0) then fl.ofNat 0
                      else fl.add x (fl.ofNat 1))
                    (fl.ofNat 0x4000))
                else
                  0x4000 + fl.toInt (fl.mul (if fl.lt (fl.ofNat 1) x then fl.ofNat 1 else x)
                    (fl.ofNat 0x3fff))) % 0x8000
          ∧ (a.Setuf fl x d1).load32 a.p
              = (if fl.toInt (fl.mul x (fl.ofNat 0x7fff)) < 0 then 0
                else if 0x7fff < fl.toInt (fl.mul x (fl.ofNat 0x7fff)) then 0x7fff
                else fl.toInt (fl.mul x (fl.ofNat 0x7fff))) := by
  obtain ⟨h1, h2⟩ := Acquire_acquired drv rid hst hacq
  refine ⟨_, discoveredAxis drv rid n, h1, h2, Axis_acquired drv rid n hst hacq hn, rfl,
    discoveredAxis_p drv rid n hn, ?_, ?_⟩
  · interval_cases n <;> simp [discoveredAxis, axisPtr, AxisX, AxisY, AxisZ, AxisRX, AxisRY, AxisRZ, Slider0, Slider1]
  · intro d1 v x
    exact ⟨sameExcept32_store32 _ _ _, sameExcept32_store32 _ _ _, sameExcept32_store32 _ _ _,
      sameExcept32_store32 _ _ _, sameExcept32_store32 _ _ _, load32_store32_same _ _ _,
      Setu_load32 _ v d1, Seti_load32 _ v d1, Setc_load32 _ v d1, Setf_load32 fl _ x d1,
      Setuf_load32 fl _ x d1⟩

/-- C5, witness: the amended claim at the absent axis Slider1 of a device whose
driver reports no axis as existing, in `float32` arithmetic. -/
theorem C5_axis_setters_write_own_field_witness :
    ∃ d a, (Acquire (sampleDriver VJD_STAT_FREE true false 0 0 0) 1).1 = some d
      ∧ (Acquire (sampleDriver VJD_STAT_FREE true false 0 0 0) 1).2.1 = none
      ∧ d.Axis (7 : Nat) = some a
      ∧ a.Exists = (sampleDriver VJD_STAT_FREE true false 0 0 0).GetVJDAxisExist 1 (axisNumber (7 : Nat))
      ∧ some a.p = [I32Ref.AxisX, I32Ref.AxisY, I32Ref.AxisZ, I32Ref.AxisXRot,
          I32Ref.AxisYRot, I32Ref.AxisZRot, I32Ref.Slider, I32Ref.Dial].get? 7
      ∧ a.p ≠ I32Ref.noi
      ∧ ∀ (d1 : Device) (v : Int) (x : F32),
          sameExcept32 d1 (a.Setu v d1) a.p ∧ sameExcept32 d1 (a.Seti v d1) a.p
          ∧ sameExcept32 d1 (a.Setc v d1) a.p ∧ sameExcept32 d1 (a.Setf binary32 x d1) a.p
          ∧ sameExcept32 d1 (a.Setuf binary32 x d1) a.p
          ∧ (a.Setu v d1).load32 a.p = toInt32 (andInt v 0x7fff)
          ∧ (a.Setu v d1).load32 a.p = v % 0x8000
          ∧ (a.Seti v d1).load32 a.p = (v - 0x4000) % 0x8000
          ∧ (a.Setc v d1).load32 a.p
              = (if v < 0 then 0 else if 0x7fff < v then 0x7fff else v)
          ∧ (a.Setf binary32 x d1).load32 a.p
              = (if binary32.lt x (binary32.ofNat 0) then
                  binary32.toInt (binary32.mul
                    (if binary32.lt (binary32.add x (binary32.ofNat 1)) (binary32.ofNat 0) then binary32.ofNat 0
                      else binary32.add x (binary32.ofNat 1))
                    (binary32.ofNat 0x4000))
                else
                  0x4000 + binary32.toInt (binary32.mul (if binary32.lt (binary32.ofNat 1) x then binary32.ofNat 1 else x)
                    (binary32.ofNat 0x3fff))) % 0x8000
          ∧ (a.Setuf binary32 x d1).load32 a.p
              = (if binary32.toInt (binary32.mul x (binary32.ofNat 0x7fff)) < 0 then 0
                else if 0x7fff < binary32.toInt (binary32.mul x (binary32.ofNat 0x7fff)) then 0x7fff
                else binary32.toInt (binary32.mul x (binary32.ofNat 0x7fff))) :=
  C5_axis_setters_write_own_field binary32 (sampleDriver VJD_STAT_FREE true false 0 0 0) 1 7
    (by decide) rfl (by decide)

end vjoy
